import Mathlib

/-!
Verification of the ABYTETRACKER playback engine (Go sources).

Shallow embedding conventions:
* Go `float64` audio arithmetic is modelled exactly: rational operations over
  `ℚ` where the code only adds/multiplies/divides rationals, and over `ℝ` where
  the transcendental `NoteToFreq` (`440 * 2^((n-57)/12)`, via `math.Pow`)
  enters.  Definitions that touch `ℝ` are `noncomputable`; everything else is
  executable.
* Go slice accesses are modelled with `List.get?`; a Go runtime panic
  (out-of-range index, `%` by zero, negative index) surfaces as `Option.none`.
* Go `int` playback counters (position, row, tick, tick counter) only ever hold
  non-negative values along the modelled operations and are embedded as `ℕ`;
  `int8` fields (pitches, ornament offsets, loop indices, echo sources) are
  embedded as `ℤ`, with 8-bit wrap-around made explicit where the code adds
  them (`int8wrap`).
* The `Player` definitions follow `src/unnamed/part_002` (the engine cited by
  the claims); `Oscillator`/`ChannelState` follow the corresponding segment of
  `src/pkg/audio/player.go`.  The tracker data structures and constants
  (`package tracker`, the contents of `pkg/tracker/types.go`) appear in
  `src/pkg/tui/model.go:938-1167`, after that file's document separator, and
  the Lean `structure`s and constants below are embedded from that source:
  every Go field is carried (including fields the playback engine never reads,
  such as `Envelope.Loop`, `Instrument.Sample`/`Formula`/`Detune` and
  `ChannelConfig.Solo`), `uint8`/`int` fields become `ℕ`, `int8`/`int16`
  fields become `ℤ`, and the `Generator`/`Fx*` constants keep their source
  values.
-/

/-- `tracker.Generator` constants (`src/pkg/tui/model.go:977-987`, a `uint8`
`iota` enumeration starting at `GenTriangle = 0`); the switch in
`Oscillator.Sample` dispatches on them, with a default case for any other
value.  Triangle wave. -/
def genTriangle : ℕ := 0

/-- `tracker.GenSawtooth`: sawtooth wave. -/
def genSawtooth : ℕ := 1

/-- `tracker.GenSquare`: square/pulse wave. -/
def genSquare : ℕ := 2

/-- `tracker.GenSawBig`: 11-bit wide sawtooth. -/
def genSawBig : ℕ := 3

/-- `tracker.GenNoise`: pseudo-random noise. -/
def genNoise : ℕ := 4

/-- `tracker.GenSample`: sample playback (not handled by `Oscillator.Sample`,
which returns 0 for it). -/
def genSample : ℕ := 5

/-- `tracker.GenBytebeat`: bytebeat formula (not handled by
`Oscillator.Sample`, which returns 0 for it). -/
def genBytebeat : ℕ := 6

/-- `tracker.Fx*` effect type constants (`src/pkg/tui/model.go:956-974`,
`uint8` values).  `FxNone = FxArpeggio = 0x00`: arpeggio when the parameter is
non-zero, no effect otherwise. -/
def fxArpeggio : ℕ := 0

/-- `tracker.FxSlideUp = 0x01`: slide up. -/
def fxSlideUp : ℕ := 1

/-- `tracker.FxSlideDown = 0x02`: slide down. -/
def fxSlideDown : ℕ := 2

/-- `tracker.FxPortamento = 0x03`: portamento to note. -/
def fxPortamento : ℕ := 3

/-- `tracker.FxVibrato = 0x04`: vibrato. -/
def fxVibrato : ℕ := 4

/-- `tracker.FxVolSlide = 0x0A`: volume slide (no `processEffect` case — the
dispatch falls through to its default no-op). -/
def fxVolSlide : ℕ := 10

/-- `tracker.FxJump = 0x0B`: jump to position (no `processEffect` case). -/
def fxJump : ℕ := 11

/-- `tracker.FxVolume = 0x0C`: set volume. -/
def fxVolume : ℕ := 12

/-- `tracker.FxBreak = 0x0D`: pattern break (no `processEffect` case). -/
def fxBreak : ℕ := 13

/-- `tracker.FxEcho = 0x0E`: echo routing. -/
def fxEcho : ℕ := 14

/-- `tracker.FxSpeed = 0x0F`: set speed (parameter `< 32`) or tempo. -/
def fxSpeed : ℕ := 15

/-- `tracker.FxOrnament = 0x10`: select ornament. -/
def fxOrnament : ℕ := 16

/-- `tracker.FxDelay = 0x11`: note delay (no `processEffect` case). -/
def fxDelay : ℕ := 17

/-- `tracker.FxRetrigger = 0x12`: retrigger note (no `processEffect` case). -/
def fxRetrigger : ℕ := 18

/-- `tracker.FxCut = 0x13`: note cut (no `processEffect` case). -/
def fxCut : ℕ := 19

/-- `tracker.FxDuty = 0x14`: set duty cycle. -/
def fxDuty : ℕ := 20

/-- `tracker.Effect` (`src/pkg/tui/model.go:950-953`): effect type and
parameter byte. -/
structure Effect where
  type : ℕ
  param : ℕ
  deriving Repr, DecidableEq

/-- `tracker.Note` (`src/pkg/tui/model.go:942-947`): pitch (`int8` semitone
index, `-1` empty, `-2` note-off), instrument reference (`uint8`, `0` = no
change), volume override (`int8`, `-1` = none), effect command. -/
structure Note where
  pitch : ℤ
  instrument : ℕ
  volume : ℤ
  effect : Effect
  deriving Repr, DecidableEq

/-- `tracker.Envelope` (`src/pkg/tui/model.go:1003-1009`): ADSR parameters in
ticks, sustain level 0–64, and a sustain-loop flag that
`ChannelState.ProcessEnvelope` never reads. -/
structure Envelope where
  attack : ℕ
  decay : ℕ
  sustain : ℕ
  release : ℕ
  loop : Bool
  deriving Repr, DecidableEq

/-- `tracker.Instrument` (`src/pkg/tui/model.go:990-1000`): generator kind,
sample data (`[]int16`, for `GenSample`), bytebeat formula (for
`GenBytebeat`), envelope, default ornament reference (`uint8`), fine detune
(`int8`), default volume, duty cycle byte.  The playback engine reads only
`Generator`, `Envelope`, `Ornament`, `Volume` and `Duty`. -/
structure Instrument where
  name : String
  generator : ℕ
  sample : List ℤ
  formula : String
  envelope : Envelope
  ornament : ℕ
  detune : ℤ
  volume : ℕ
  duty : ℕ
  deriving Repr, DecidableEq

/-- `tracker.Ornament` (`src/pkg/tui/model.go:1012-1016`): loop-back index
(`int8`, `-1` = no loop, clamp at last value) and `int8` semitone offset
sequence. -/
structure Ornament where
  name : String
  loop : ℤ
  values : List ℤ
  deriving Repr, DecidableEq

/-- `tracker.Pattern` (`src/pkg/tui/model.go:1019-1023`): a `rows × channels`
grid of note cells, `notes[row][channel]`. -/
structure Pattern where
  rows : ℕ
  channels : ℕ
  notes : List (List Note)
  deriving Repr, DecidableEq

/-- `tracker.ChannelConfig` (`src/pkg/tui/model.go:1042-1053`): name, default
generator, channel volume, pan (`int8`), mute and solo flags, and the echo
settings (source channel as `int8` with `-1` = none, delay in rows, volume
offset as `int8`).  The mixer reads `Muted` and `Volume`; `NewPlayer` reads
the echo settings. -/
structure ChannelConfig where
  name : String
  generator : ℕ
  volume : ℕ
  pan : ℤ
  muted : Bool
  solo : Bool
  echoSource : ℤ
  echoDelay : ℕ
  echoVolume : ℤ
  deriving Repr, DecidableEq

/-- `tracker.Song` (`src/pkg/tui/model.go:1056-1069`): metadata, timing, and
the owned instrument/ornament/pattern/order/channel-config lists. -/
structure Song where
  title : String
  author : String
  speed : ℕ
  tempo : ℕ
  sampleRate : ℕ
  channels : ℕ
  instruments : List Instrument
  ornaments : List Ornament
  patterns : List Pattern
  order : List ℕ
  chanConfig : List ChannelConfig
  deriving Repr, DecidableEq

/-- Go truncation-toward-zero of a real to an integer, as performed by Go's
`int(x)` conversion of a `float64`. -/
noncomputable def goTruncR (x : ℝ) : ℤ := if 0 ≤ x then ⌊x⌋ else -⌊-x⌋

/-- Go truncation-toward-zero for the rational-valued paths (`int(pos*256)` in
`vibOffset`). -/
def goTruncQ (q : ℚ) : ℤ := if 0 ≤ q then ⌊q⌋ else -⌊-q⌋

/-- Wrap-around of Go `int8` arithmetic into `[-128, 127]`. -/
def int8wrap (z : ℤ) : ℤ := (z + 128).emod 256 - 128

/-- Oscillator state, `src/pkg/audio/player.go` (`Oscillator`): waveform type,
phase accumulator, frequency, sample rate, duty cycle. -/
structure Oscillator where
  type : ℕ
  phase : ℝ
  frequency : ℝ
  sampleRate : ℚ
  duty : ℚ

/-- `NewOscillator`: fresh oscillator with 50% duty, zero phase/frequency. -/
noncomputable def newOscillator (genType : ℕ) (sampleRate : ℚ) : Oscillator :=
  { type := genType, phase := 0, frequency := 0, sampleRate := sampleRate, duty := 1/2 }

/-- `Oscillator.SetDuty`: clamp the duty cycle into `[0, 1]`. -/
def Oscillator.setDuty (o : Oscillator) (duty : ℚ) : Oscillator :=
  let d := if duty < 0 then 0 else duty
  let d := if 1 < d then 1 else d
  { o with duty := d }

/-- `Oscillator.SetFrequency`. -/
def Oscillator.setFrequency (o : Oscillator) (freq : ℝ) : Oscillator :=
  { o with frequency := freq }

/-- `Oscillator.Reset`: reset the phase to 0. -/
def Oscillator.reset (o : Oscillator) : Oscillator := { o with phase := 0 }

/-- `NoteToFreq`: MIDI-style note number to frequency, A4 = 57 = 440 Hz. -/
noncomputable def noteToFreq (note : ℤ) : ℝ :=
  440 * (2 : ℝ) ^ (((note : ℝ) - 57) / 12)

/-- `Oscillator.triangle` waveform: linear ramp −1→1 on `[0, 0.5)`, 1→−1 after. -/
noncomputable def Oscillator.triangle (o : Oscillator) : ℝ :=
  if o.phase < 1/2 then 4 * o.phase - 1 else 3 - 4 * o.phase

/-- `Oscillator.sawtooth` waveform: `2*phase - 1`. -/
noncomputable def Oscillator.sawtooth (o : Oscillator) : ℝ := 2 * o.phase - 1

/-- `Oscillator.square` waveform: +1 below the duty cycle, −1 above. -/
noncomputable def Oscillator.square (o : Oscillator) : ℝ :=
  if o.phase < (o.duty : ℝ) then 1 else -1

/-- `Oscillator.sawBig`: 11-bit sawtooth, `int(phase*2048) & 2047` mapped to
`[-1, 1)`.  Bitwise AND with 2047 on the two's-complement `int` is `emod 2048`. -/
noncomputable def Oscillator.sawBig (o : Oscillator) : ℝ :=
  let val : ℤ := (goTruncR (o.phase * 2048)).emod 2048
  (val : ℝ) / 1024 - 1

/-- `Oscillator.noise`: LCG hash of the phase quantized to a 1e6 integer
domain.  `uint32` arithmetic is arithmetic mod `2^32`; the final `int32`
reinterpretation subtracts `2^32` above `2^31`. -/
noncomputable def Oscillator.noise (o : Oscillator) : ℝ :=
  let seed0 : ℕ := ((goTruncR (o.phase * 1000000)).emod 4294967296).toNat
  let seed : ℕ := (seed0 * 1103515245 + 12345) % 4294967296
  let s32 : ℤ := if seed < 2147483648 then (seed : ℤ) else (seed : ℤ) - 4294967296
  (s32 : ℝ) / 2147483647

/-- `Oscillator.Sample`: zero/negative frequency yields 0 without advancing the
phase; otherwise advance the phase by `frequency / sampleRate`, wrap at 1, and
evaluate the waveform selected by the type, defaulting to 0. -/
noncomputable def Oscillator.sample (o : Oscillator) : Oscillator × ℝ :=
  if o.frequency ≤ 0 then (o, 0)
  else
    let phase1 := o.phase + o.frequency / (o.sampleRate : ℝ)
    let phase2 := if 1 ≤ phase1 then phase1 - 1 else phase1
    let o' : Oscillator := { o with phase := phase2 }
    let v : ℝ :=
      if o'.type = genTriangle then o'.triangle
      else if o'.type = genSawtooth then o'.sawtooth
      else if o'.type = genSquare then o'.square
      else if o'.type = genSawBig then o'.sawBig
      else if o'.type = genNoise then o'.noise
      else 0
    (o', v)

/-- Channel voice state, `src/pkg/audio/player.go` (`ChannelState`). -/
structure ChannelState where
  active : Bool
  osc : Oscillator
  instrument : ℤ
  note : ℤ
  baseNote : ℤ
  volume : ℚ
  targetVol : ℚ
  frequency : ℝ
  envPhase : ℕ
  envPos : ℚ
  ornament : ℤ
  ornPos : ℕ
  ornTick : ℕ
  portaTarget : ℝ
  portaSpeed : ℚ
  vibDepth : ℚ
  vibSpeed : ℚ
  vibPos : ℚ
  slideSpeed : ℚ
  echoSource : ℤ
  echoDelay : ℕ
  echoVolMod : ℚ

/-- `NewChannelState`: fresh voice with a triangle oscillator, zero volume and
no echo source; all remaining fields are Go zero values. -/
noncomputable def newChannelState (sampleRate : ℚ) : ChannelState :=
  { active := false, osc := newOscillator genTriangle sampleRate,
    instrument := 0, note := 0, baseNote := 0, volume := 0, targetVol := 0,
    frequency := 0, envPhase := 0, envPos := 0, ornament := 0, ornPos := 0,
    ornTick := 0, portaTarget := 0, portaSpeed := 0, vibDepth := 0,
    vibSpeed := 0, vibPos := 0, slideSpeed := 0, echoSource := -1,
    echoDelay := 0, echoVolMod := 0 }

/-- `ChannelState.TriggerNote`: start a new note — activate the voice, set the
note and frequency, reset the oscillator phase, bind instrument data (waveform,
ornament, duty, default volume) when present, apply an explicit volume
override, and reset the envelope and ornament cursors. -/
noncomputable def ChannelState.triggerNote (cs : ChannelState) (note : ℤ)
    (inst : Option Instrument) (volume : ℤ) : ChannelState :=
  let freq := noteToFreq note
  let cs1 : ChannelState :=
    { cs with
        active := true
        note := note
        baseNote := note
        frequency := freq
        osc := (cs.osc.setFrequency freq).reset }
  let cs2 : ChannelState :=
    match inst with
    | some inst =>
      let osc1 := { cs1.osc with type := inst.generator }
      let osc2 := if 0 < inst.duty then osc1.setDuty ((inst.duty : ℚ) / 255)
                  else osc1.setDuty (1/2)
      let csA := { cs1 with osc := osc2, ornament := (inst.ornament : ℤ) }
      if volume < 0 then { csA with targetVol := (inst.volume : ℚ) / 64 } else csA
    | none => cs1
  let cs3 := if 0 ≤ volume then { cs2 with targetVol := (volume : ℚ) / 64 } else cs2
  { cs3 with envPhase := 0, envPos := 0, ornPos := 0, ornTick := 0 }

/-- `ChannelState.NoteOff`: enter the release envelope phase. -/
def ChannelState.noteOff (cs : ChannelState) : ChannelState :=
  { cs with envPhase := 3, envPos := 0 }

/-- `ChannelState.ProcessEnvelope`: one tick of the ADSR state machine.  With
no envelope the volume tracks the target directly.  The `tickSamples` argument
is accepted, as in the source, but unused. -/
def ChannelState.processEnvelope (cs : ChannelState) (env : Option Envelope)
    (tickSamples : ℕ) : ChannelState :=
  match env with
  | none => { cs with volume := cs.targetVol }
  | some env =>
    match cs.envPhase with
    | 0 =>
      if env.attack = 0 then { cs with volume := cs.targetVol, envPhase := 1 }
      else
        let envPos := cs.envPos + 1 / (env.attack : ℚ)
        let volume := cs.targetVol * envPos
        if 1 ≤ envPos then
          { cs with volume := cs.targetVol, envPhase := 1, envPos := 0 }
        else { cs with envPos := envPos, volume := volume }
    | 1 =>
      if env.decay = 0 then { cs with envPhase := 2 }
      else
        let sustainLevel := (env.sustain : ℚ) / 64 * cs.targetVol
        let envPos := cs.envPos + 1 / (env.decay : ℚ)
        let volume := cs.targetVol - (cs.targetVol - sustainLevel) * envPos
        if 1 ≤ envPos then
          { cs with volume := sustainLevel, envPhase := 2, envPos := 0 }
        else { cs with envPos := envPos, volume := volume }
    | 2 => { cs with volume := (env.sustain : ℚ) / 64 * cs.targetVol }
    | 3 =>
      if env.release = 0 ∨ cs.volume ≤ 1/1000 then
        { cs with volume := 0, active := false }
      else
        let envPos := cs.envPos + 1 / (env.release : ℚ)
        let volume := cs.volume * (1 - envPos * (1/10))
        if volume ≤ 1/1000 then
          { cs with envPos := envPos, volume := 0, active := false }
        else { cs with envPos := envPos, volume := volume }
    | _ => cs

/-- `ChannelState.ProcessOrnament`: apply the semitone offset under the
ornament cursor to the base note (8-bit wrap-around of the Go `int8` addition
made explicit), push the frequency, and advance the cursor with loop/clamp
handling at the end of the value sequence.  A cursor beyond the value list is a
Go panic (`none`). -/
noncomputable def ChannelState.processOrnament (cs : ChannelState)
    (orn : Option Ornament) : Option ChannelState :=
  match orn with
  | none => some cs
  | some orn =>
    if orn.values.isEmpty then some cs
    else
      match orn.values.get? cs.ornPos with
      | none => none
      | some off =>
        let note := int8wrap (cs.baseNote + off)
        let freq := noteToFreq note
        let cs1 : ChannelState :=
          { cs with note := note, frequency := freq, osc := cs.osc.setFrequency freq }
        let ornTick := cs1.ornTick + 1
        if 1 ≤ ornTick then
          let ornPos := cs1.ornPos + 1
          let ornPos :=
            if orn.values.length ≤ ornPos then
              if 0 ≤ orn.loop then orn.loop.toNat else orn.values.length - 1
            else ornPos
          some { cs1 with ornTick := 0, ornPos := ornPos }
        else some { cs1 with ornTick := ornTick }

/-- `vibOffset` helper: folded linear ramp approximating a sine,
`float64(int(pos*256)&255-128)/128`. -/
def vibOffsetF (pos : ℚ) : ℚ :=
  (((goTruncQ (pos * 256)).emod 256 - 128 : ℤ) : ℚ) / 128

/-- Player state, `src/unnamed/part_002` (`Player`): song, per-channel voice
states, playback counters, timing, and echo ring buffers.  The wall-clock
field `LastTime`, the UI callbacks and the mutex are external-collaborator
concerns and carry no engine semantics. -/
structure Player where
  song : Song
  channels : List ChannelState
  sampleRate : ℕ
  playing : Bool
  position : ℕ
  pattern : ℕ
  row : ℕ
  tick : ℕ
  tickSamples : ℕ
  tickCounter : ℕ
  echoBuffers : List (List ℝ)
  echoPos : List ℕ

/-- `Player.UpdateTiming`: `TickSamples = int(sampleRate / (tempo * 2 / 5))`,
the truncation of the real quotient (exact at the spec's reference inputs). -/
def Player.updateTiming (p : Player) : Player :=
  let ticksPerSecond : ℚ := (p.song.tempo : ℚ) * 2 / 5
  { p with tickSamples := (⌊(p.sampleRate : ℚ) / ticksPerSecond⌋).toNat }

/-- `Player.Stop`: stop playback and silence every channel. -/
def Player.stop (p : Player) : Player :=
  { p with
      playing := false
      channels := p.channels.map fun cs => { cs with active := false, volume := 0 } }

/-- `Player.processEffect`: decode one effect command for channel `ch`.  The
zero command is a no-op before the channel is even read; every other command
reads `Channels[ch]` (a panic — `none` — when out of range) and dispatches on
the type, updating only that channel's state, except the speed/tempo effect
which updates the song and recomputes the timing. -/
def Player.processEffect (p : Player) (ch : ℕ) (fx : Effect) : Option Player :=
  if fx.type = 0 ∧ fx.param = 0 then some p
  else
    match p.channels.get? ch with
    | none => none
    | some cs =>
      if fx.type = fxArpeggio then
        if fx.param ≠ 0 then
          some { p with channels := p.channels.set ch { cs with baseNote := cs.note } }
        else some p
      else if fx.type = fxSlideUp then
        some { p with channels := p.channels.set ch { cs with slideSpeed := (fx.param : ℚ) * 4 } }
      else if fx.type = fxSlideDown then
        some { p with channels := p.channels.set ch { cs with slideSpeed := -((fx.param : ℚ)) * 4 } }
      else if fx.type = fxPortamento then
        some { p with channels := p.channels.set ch { cs with portaSpeed := (fx.param : ℚ) * 4 } }
      else if fx.type = fxVibrato then
        let cs1 := { cs with vibSpeed := ((fx.param / 16) % 16 : ℕ), vibDepth := (fx.param % 16 : ℕ) }
        some { p with channels := p.channels.set ch cs1 }
      else if fx.type = fxVolume then
        if fx.param ≤ 64 then
          let cs1 := { cs with targetVol := (fx.param : ℚ) / 64, volume := (fx.param : ℚ) / 64 }
          some { p with channels := p.channels.set ch cs1 }
        else some p
      else if fx.type = fxSpeed then
        if fx.param < 32 then
          some { p with song := { p.song with speed := fx.param } }
        else
          some (Player.updateTiming { p with song := { p.song with tempo := fx.param } })
      else if fx.type = fxOrnament then
        if fx.param < p.song.ornaments.length then
          let cs1 := { cs with ornament := (fx.param : ℤ), ornPos := 0, ornTick := 0 }
          some { p with channels := p.channels.set ch cs1 }
        else some p
      else if fx.type = fxEcho then
        let cs1 := { cs with echoSource := (((fx.param / 16) % 16 : ℕ) : ℤ), echoDelay := fx.param % 16 }
        some { p with channels := p.channels.set ch cs1 }
      else if fx.type = fxDuty then
        let cs1 := { cs with osc := cs.osc.setDuty ((fx.param : ℚ) / 255) }
        some { p with channels := p.channels.set ch cs1 }
      else some p

/-- The per-channel body of the `Player.ProcessRow` loop: note-off / note-on
handling for `cells[ch]` (instrument resolution with the channel's last-used
instrument as fallback) followed by the cell's effect command.  `nCh` snapshots
`p.Song.Channels`, which no statement of the loop body writes. -/
noncomputable def Player.processRowFrom (nCh : ℕ) (pat : Pattern) (row : ℕ) :
    ℕ → Player → Option Player
  | ch, p =>
    if _h : ch < nCh then
      match pat.notes.get? row with
      | none => none
      | some cells =>
        if ch < cells.length then
          match cells.get? ch, p.channels.get? ch with
          | some note, some cs =>
            let p1 : Player :=
              if note.pitch = -2 then
                { p with channels := p.channels.set ch cs.noteOff }
              else if 0 ≤ note.pitch then
                let instNum : ℤ := (note.instrument : ℤ) - 1
                let resolved : Option Instrument × ChannelState :=
                  if 0 ≤ instNum ∧ instNum < (p.song.instruments.length : ℤ) then
                    (p.song.instruments.get? instNum.toNat, { cs with instrument := instNum })
                  else if 0 ≤ cs.instrument ∧ cs.instrument < (p.song.instruments.length : ℤ) then
                    (p.song.instruments.get? cs.instrument.toNat, cs)
                  else (none, cs)
                let cs1 := resolved.2.triggerNote note.pitch resolved.1 note.volume
                { p with channels := p.channels.set ch cs1 }
              else p
            match p1.processEffect ch note.effect with
            | none => none
            | some p2 => Player.processRowFrom nCh pat row (ch + 1) p2
          | _, _ => none
        else some p
    else some p
  termination_by ch => nCh - ch

/-- `Player.ProcessRow`: out-of-range pattern or row indices return silently;
otherwise trigger the notes and dispatch the effects of every cell of the
current row (short-circuit: with zero channels the row's cell list is never
read, matching Go's `&&`). -/
noncomputable def Player.processRow (p : Player) : Option Player :=
  if p.song.patterns.length ≤ p.pattern then some p
  else
    match p.song.patterns.get? p.pattern with
    | none => none
    | some pat =>
      if pat.rows ≤ p.row then some p
      else Player.processRowFrom p.song.channels pat p.row 0 p

/-- `Player.Play`: mark playing and process the first row immediately. -/
noncomputable def Player.play (p : Player) : Option Player :=
  Player.processRow { p with playing := true }

/-- The `// Apply ornament` block of `Player.ProcessTick`: a positive,
in-range ornament index steps the ornament; the cursor access can panic
(`none`). -/
noncomputable def ornamentStep (song : Song) (cs : ChannelState) :
    Option ChannelState :=
  if 0 < cs.ornament ∧ cs.ornament ≤ (song.ornaments.length : ℤ) then
    match song.ornaments.get? (cs.ornament.toNat - 1) with
    | none => none
    | some o => cs.processOrnament (some o)
  else some cs

/-- The `// Apply vibrato` block of `Player.ProcessTick`: advance the vibrato
phase and push the modulated base-note frequency into the oscillator (the
channel's own frequency field is not written). -/
noncomputable def vibratoStep (cs : ChannelState) : ChannelState :=
  if 0 < cs.vibDepth then
    let vibPos := cs.vibPos + cs.vibSpeed * (1/10)
    let vo := cs.vibDepth * (1/2) * (1 + (1/2) * vibOffsetF vibPos)
    let freq := noteToFreq cs.baseNote * (1 + (vo : ℝ) / 100)
    { cs with vibPos := vibPos, osc := cs.osc.setFrequency freq }
  else cs

/-- The `// Apply slide` block of `Player.ProcessTick`: linear frequency
slide, clamped into [20 Hz, 20000 Hz]. -/
noncomputable def slideStep (cs : ChannelState) : ChannelState :=
  if cs.slideSpeed ≠ 0 then
    let f := cs.frequency + (cs.slideSpeed : ℝ)
    let f := if f < 20 then 20 else f
    let f := if 20000 < f then 20000 else f
    { cs with frequency := f, osc := cs.osc.setFrequency f }
  else cs

/-- The `// Apply portamento` block of `Player.ProcessTick`: step the
frequency toward the portamento target, clamping at the target. -/
noncomputable def portamentoStep (cs : ChannelState) : ChannelState :=
  if 0 < cs.portaSpeed ∧ 0 < cs.portaTarget then
    let f :=
      if cs.frequency < cs.portaTarget then
        let f1 := cs.frequency + (cs.portaSpeed : ℝ)
        if cs.portaTarget < f1 then cs.portaTarget else f1
      else if cs.portaTarget < cs.frequency then
        let f1 := cs.frequency - (cs.portaSpeed : ℝ)
        if f1 < cs.portaTarget then cs.portaTarget else f1
      else cs.frequency
    { cs with frequency := f, osc := cs.osc.setFrequency f }
  else cs

/-- The `// Process envelope` block of `Player.ProcessTick`: resolve the bound
instrument's envelope (none when the index is out of range) and run one
envelope tick. -/
def envelopeStep (song : Song) (tickSamples : ℕ) (cs : ChannelState) :
    ChannelState :=
  let env : Option Envelope :=
    if 0 ≤ cs.instrument ∧ cs.instrument < (song.instruments.length : ℤ) then
      (song.instruments.get? cs.instrument.toNat).map (·.envelope)
    else none
  cs.processEnvelope env tickSamples

/-- The per-channel body of the `Player.ProcessTick` loop: skip inactive
voices, then ornament stepping, vibrato, linear slide, portamento, and the
envelope tick, in source order. -/
noncomputable def tickChannel (song : Song) (tickSamples : ℕ)
    (cs : ChannelState) : Option ChannelState :=
  if cs.active = false then some cs
  else
    match ornamentStep song cs with
    | none => none
    | some cs1 =>
      some (envelopeStep song tickSamples (portamentoStep (slideStep (vibratoStep cs1))))

/-- The `Player.ProcessTick` channel loop from index `ch` upward: each
iteration reads `Channels[ch]` (panic — `none` — when `Song.Channels` exceeds
the channel list) and writes back the updated voice. -/
noncomputable def tickChannelsFrom (song : Song) (tickSamples : ℕ) :
    ℕ → List ChannelState → Option (List ChannelState)
  | ch, chans =>
    if _h : ch < song.channels then
      match chans.get? ch with
      | none => none
      | some cs =>
        match tickChannel song tickSamples cs with
        | none => none
        | some cs1 => tickChannelsFrom song tickSamples (ch + 1) (chans.set ch cs1)
    else some chans
  termination_by ch _ => song.channels - ch

/-- `Player.ProcessTick`: apply the per-tick effects to every channel. -/
noncomputable def Player.processTick (p : Player) : Option Player :=
  (tickChannelsFrom p.song p.tickSamples 0 p.channels).map
    fun chans => { p with channels := chans }

/-- The per-sample playback-advance block of `Player.GenerateSamples`
(`src/unnamed/part_002:352-384`): bump the sample counter; at a tick boundary
reset it, run `ProcessRow` on tick 0, run `ProcessTick`, advance the tick, and
on reaching `Speed` advance the row with pattern-end / order-end wrapping.
Indexing the order list is a panic (`none`) when it is empty. -/
noncomputable def Player.stepAdvance (p : Player) : Option Player :=
  if p.playing = false then some p
  else
    let p := { p with tickCounter := p.tickCounter + 1 }
    if p.tickCounter < p.tickSamples then some p
    else
      let p := { p with tickCounter := 0 }
      match (if p.tick = 0 then p.processRow else some p) with
      | none => none
      | some p =>
        match p.processTick with
        | none => none
        | some p =>
          let p := { p with tick := p.tick + 1 }
          if p.tick < p.song.speed then some p
          else
            let p := { p with tick := 0, row := p.row + 1 }
            if p.pattern < p.song.patterns.length then
              match p.song.patterns.get? p.pattern with
              | none => none
              | some pat =>
                if p.row < pat.rows then some p
                else
                  let p := { p with row := 0, position := p.position + 1 }
                  let p := if p.song.order.length ≤ p.position then { p with position := 0 } else p
                  match p.song.order.get? p.position with
                  | none => none
                  | some patIdx => some { p with pattern := patIdx }
            else some p

/-- Iterated per-sample advance: the scheduler effect of a `GenerateSamples`
call over a buffer of `n` samples. -/
noncomputable def Player.stepAdvanceN : ℕ → Player → Option Player
  | 0, p => some p
  | n + 1, p =>
    match p.stepAdvance with
    | none => none
    | some p1 => Player.stepAdvanceN n p1

/-- Condition under which one sample step invokes `ProcessRow`: playing, the
sample counter reaches `TickSamples`, and the row is at tick 0. -/
def Player.processesRowB (p : Player) : Bool :=
  p.playing && decide (p.tickSamples ≤ p.tickCounter + 1) && decide (p.tick = 0)

/-- Row-processing trace over `n` samples: the `(position, row)` pairs at every
sample step whose pre-state fires `ProcessRow`. -/
noncomputable def Player.traceRows : ℕ → Player → Option (List (ℕ × ℕ))
  | 0, _ => some []
  | n + 1, p =>
    match p.stepAdvance with
    | none => none
    | some p1 =>
      match Player.traceRows n p1 with
      | none => none
      | some rest =>
        some (if p.processesRowB then (p.position, p.row) :: rest else rest)

/-- Iterated per-channel tick processing: the effect of `n` further
`ProcessTick` calls on one channel's voice state. -/
noncomputable def tickChannelN (song : Song) (tickSamples : ℕ) :
    ℕ → ChannelState → Option ChannelState
  | 0, cs => some cs
  | n + 1, cs =>
    match tickChannel song tickSamples cs with
    | none => none
    | some cs1 => tickChannelN song tickSamples n cs1

/-- Structural well-formedness established by `NewPlayer`: the channel-state
list covers the song's channel count. -/
def wfChannelsB (p : Player) : Bool := decide (p.song.channels ≤ p.channels.length)

/-- Pattern well-formedness (spec §3: a pattern is a fixed `Rows × Channels`
grid): the row count does not exceed the note grid. -/
def wfPatternsB (song : Song) : Bool :=
  song.patterns.all fun pat => decide (pat.rows ≤ pat.notes.length)

/-- Ornament well-formedness (spec §8: loop index `k ∈ [0, L)`): a
non-negative loop index points inside the value sequence. -/
def wfOrnamentsB (song : Song) : Bool :=
  song.ornaments.all fun orn => decide (0 ≤ orn.loop → orn.loop < (orn.values.length : ℤ))

/-- Validity of one channel's ornament cursor: an active voice whose ornament
index selects an existing, non-empty ornament keeps its cursor inside the
value sequence. -/
def cursorOkB (orns : List Ornament) (cs : ChannelState) : Bool :=
  !cs.active ||
  !(decide (0 < cs.ornament) && decide (cs.ornament ≤ (orns.length : ℤ))) ||
  (match orns.get? (cs.ornament.toNat - 1) with
   | some orn => orn.values.isEmpty || decide (cs.ornPos < orn.values.length)
   | none => true)

/-- All channel ornament cursors valid. -/
def wfCursorsB (p : Player) : Bool := p.channels.all (cursorOkB p.song.ornaments)

/-- Concrete oscillator used to witness C9: noise type, phase 1/2. -/
noncomputable def oscWitA : Oscillator :=
  { type := genNoise, phase := 1/2, frequency := 440, sampleRate := 44100, duty := 1/2 }

/-- Concrete oscillator used to witness C9: different type, frequency and
rate, same phase 1/2. -/
noncomputable def oscWitB : Oscillator :=
  { type := genSawBig, phase := 1/2, frequency := 220, sampleRate := 48000, duty := 1/4 }

/-- Concrete oscillator used to witness C10: phase 0, frequency 1, rate 2. -/
noncomputable def oscWitC : Oscillator :=
  { type := genTriangle, phase := 0, frequency := 1, sampleRate := 2, duty := 1/2 }

/-- Empty song used as context in witnesses: zero channels, empty lists. -/
def songWit0 : Song :=
  { title := "", author := "", speed := 6, tempo := 125, sampleRate := 44100,
    channels := 0, instruments := [], ornaments := [], patterns := [],
    order := [], chanConfig := [] }

/-- Envelope with zero release used to witness C7. -/
def envWitRel : Envelope :=
  { attack := 0, decay := 0, sustain := 32, release := 0, loop := false }

/-- Concrete voice in the release phase used to witness C7. -/
noncomputable def csRelWit : ChannelState :=
  { newChannelState 44100 with active := true, envPhase := 3, volume := 1/2 }

/-- Concrete two-channel player used in witnesses. -/
noncomputable def playerWit8 : Player :=
  { song := { songWit0 with channels := 2 }
    channels := [newChannelState 44100, newChannelState 44100]
    sampleRate := 44100
    playing := false
    position := 0
    pattern := 0
    row := 0
    tick := 0
    tickSamples := 882
    tickCounter := 0
    echoBuffers := [[0, 0], [0, 0]]
    echoPos := [0, 0] }

/-- Concrete ornament (loop index 0, three offsets) used to witness C6. -/
def ornWit : Ornament := { name := "", loop := 0, values := [0, 3, 7] }

/-- Concrete voice at the last ornament cursor position used to witness C6. -/
noncomputable def csOrnWit : ChannelState :=
  { newChannelState 44100 with active := true, baseNote := 48, ornPos := 2 }

/-- The note-handling part of the `ProcessRow` loop body for one cell, as a
function of the instrument list and the channel's voice state: note-off enters
release, a pitch `≥ 0` resolves the instrument (explicit cell reference first,
else the channel's last-used instrument, else none) and triggers the note, and
an empty cell leaves the voice alone.  `processRowFrom` is proven to act on
channel `ch` exactly by this function followed by `effectChannel`. -/
noncomputable def rowCellNote (instruments : List Instrument) (note : Note)
    (cs : ChannelState) : ChannelState :=
  if note.pitch = -2 then cs.noteOff
  else if 0 ≤ note.pitch then
    let instNum : ℤ := (note.instrument : ℤ) - 1
    let resolved : Option Instrument × ChannelState :=
      if 0 ≤ instNum ∧ instNum < (instruments.length : ℤ) then
        (instruments.get? instNum.toNat, { cs with instrument := instNum })
      else if 0 ≤ cs.instrument ∧ cs.instrument < (instruments.length : ℤ) then
        (instruments.get? cs.instrument.toNat, cs)
      else (none, cs)
    resolved.2.triggerNote note.pitch resolved.1 note.volume
  else cs

/-- The action of `processEffect` on the addressed channel's own voice state,
as a function of the ornament count: the per-channel content of each switch
branch (the speed/tempo branch and the out-of-range/unknown branches leave
the voice unchanged). -/
def effectChannel (ornLen : ℕ) (fx : Effect) (cs : ChannelState) : ChannelState :=
  if fx.type = 0 ∧ fx.param = 0 then cs
  else if fx.type = fxArpeggio then
    if fx.param ≠ 0 then { cs with baseNote := cs.note } else cs
  else if fx.type = fxSlideUp then { cs with slideSpeed := (fx.param : ℚ) * 4 }
  else if fx.type = fxSlideDown then { cs with slideSpeed := -((fx.param : ℚ)) * 4 }
  else if fx.type = fxPortamento then { cs with portaSpeed := (fx.param : ℚ) * 4 }
  else if fx.type = fxVibrato then
    { cs with vibSpeed := ((fx.param / 16) % 16 : ℕ), vibDepth := (fx.param % 16 : ℕ) }
  else if fx.type = fxVolume then
    if fx.param ≤ 64 then
      { cs with targetVol := (fx.param : ℚ) / 64, volume := (fx.param : ℚ) / 64 }
    else cs
  else if fx.type = fxSpeed then cs
  else if fx.type = fxOrnament then
    if fx.param < ornLen then
      { cs with ornament := (fx.param : ℤ), ornPos := 0, ornTick := 0 }
    else cs
  else if fx.type = fxEcho then
    { cs with echoSource := (((fx.param / 16) % 16 : ℕ) : ℤ), echoDelay := fx.param % 16 }
  else if fx.type = fxDuty then { cs with osc := cs.osc.setDuty ((fx.param : ℚ) / 255) }
  else cs

/-- Instrument resolution used by the `ProcessRow` note-on path: the explicit
cell reference (1-based) if it is in range, else the channel's last-used
instrument index if in range, else none. -/
def resolveInstrument (instruments : List Instrument) (note : Note)
    (cs : ChannelState) : Option Instrument :=
  let instNum : ℤ := (note.instrument : ℤ) - 1
  if 0 ≤ instNum ∧ instNum < (instruments.length : ℤ) then
    instruments.get? instNum.toNat
  else if 0 ≤ cs.instrument ∧ cs.instrument < (instruments.length : ℤ) then
    instruments.get? cs.instrument.toNat
  else none

/-- Instrument with default volume 32 used in the C4 states. -/
def instWit : Instrument :=
  { name := "lead", generator := genSquare, sample := [], formula := "",
    envelope := { attack := 0, decay := 0, sustain := 64, release := 1, loop := false },
    ornament := 0, detune := 0, volume := 32, duty := 128 }

/-- Pattern cell triggering note 57 with instrument 1 and a set-volume effect
`C64`, the C4 counterexample cell. -/
def cellFxVol : Note :=
  { pitch := 57, instrument := 1, volume := -1, effect := { type := fxVolume, param := 64 } }

/-- Pattern cell triggering note 57 with instrument 1 and no effect, used to
witness the amended C4. -/
def cellPlain : Note :=
  { pitch := 57, instrument := 1, volume := -1, effect := { type := 0, param := 0 } }

/-- One-row, one-channel pattern around a given cell. -/
def patOfCell (c : Note) : Pattern := { rows := 1, channels := 1, notes := [[c]] }

/-- One-channel player playing a one-row pattern that contains the given
cell. -/
noncomputable def playerOfCell (c : Note) : Player :=
  { song := { songWit0 with channels := 1, instruments := [instWit], patterns := [patOfCell c] }
    channels := [newChannelState 44100]
    sampleRate := 44100
    playing := true
    position := 0
    pattern := 0
    row := 0
    tick := 0
    tickSamples := 882
    tickCounter := 0
    echoBuffers := [[0, 0]]
    echoPos := [0] }


/-- Two-row, zero-channel pattern used in the C1 witness. -/
def patWitC1 : Pattern := { rows := 2, channels := 0, notes := [[], []] }

/-- Concrete playing state used in the C1 witness: speed 6, tempo 125, sample
rate 44100, tick samples 882, at row 0 of a two-row pattern. -/
def playerWitC1 : Player :=
  { song := { title := "", author := "", speed := 6, tempo := 125, sampleRate := 44100, channels := 0, instruments := [], ornaments := [], patterns := [patWitC1], order := [0], chanConfig := [] }
    channels := []
    sampleRate := 44100
    playing := true
    position := 0
    pattern := 0
    row := 0
    tick := 0
    tickSamples := 882
    tickCounter := 0
    echoBuffers := []
    echoPos := [] }

/-- One-row, zero-channel pattern used in the C2 and C3 states. -/
def patWitRow1 : Pattern := { rows := 1, channels := 0, notes := [[]] }

/-- Playing state with an empty order list, at the end of its only pattern:
the next row advance wraps the order position and indexes `Order[0]`. -/
def playerEmptyOrder : Player :=
  { song := { title := "", author := "", speed := 1, tempo := 125, sampleRate := 44100, channels := 0, instruments := [], ornaments := [], patterns := [patWitRow1], order := [], chanConfig := [] }
    channels := []
    sampleRate := 44100
    playing := true
    position := 0
    pattern := 0
    row := 0
    tick := 0
    tickSamples := 1
    tickCounter := 0
    echoBuffers := []
    echoPos := [] }

/-- 64-row, zero-channel pattern used in the C3 witness. -/
def patWitC3 : Pattern :=
  { rows := 64, channels := 0, notes := List.replicate 64 [] }

/-- Concrete playing state used in the C3 witness: `Order = [0]`, one 64-row
pattern, speed 1, one sample per tick. -/
def playerWitC3 : Player :=
  { song := { title := "", author := "", speed := 1, tempo := 125, sampleRate := 44100, channels := 0, instruments := [], ornaments := [], patterns := [patWitC3], order := [0], chanConfig := [] }
    channels := []
    sampleRate := 44100
    playing := true
    position := 0
    pattern := 0
    row := 0
    tick := 0
    tickSamples := 1
    tickCounter := 0
    echoBuffers := []
    echoPos := [] }

/-! ## Theorems -/

/-- C9: the noise and wide-sawtooth waveform values are pure functions of the
oscillator's current phase: any two oscillators with the same phase produce
the same noise sample and the same wide-sawtooth sample, whatever their other
state — so identical phase sequences yield identical sample sequences. -/
theorem noise_sawBig_deterministic (o1 o2 : Oscillator) (h : o1.phase = o2.phase) :
    o1.noise = o2.noise ∧ o1.sawBig = o2.sawBig := by
  unfold Oscillator.noise Oscillator.sawBig
  rw [h]
  exact ⟨rfl, rfl⟩



/-- Witness for C9 at two concrete oscillators that differ in everything but
the phase. -/
theorem noise_sawBig_deterministic_witness :
    oscWitA.phase = oscWitB.phase ∧
      (oscWitA.noise = oscWitB.noise ∧ oscWitA.sawBig = oscWitB.sawBig) :=
  ⟨rfl, noise_sawBig_deterministic oscWitA oscWitB rfl⟩

/-- C10: with the phase in `[0, 1)` and `0 < Frequency ≤ SampleRate`, one
`Sample()` call keeps the phase in `[0, 1)`; with `Frequency ≤ 0` it returns 0
and leaves the oscillator (hence the phase) unchanged. -/
theorem sample_phase_invariant (o : Oscillator)
    (hp0 : 0 ≤ o.phase) (hp1 : o.phase < 1) :
    (o.frequency ≤ 0 → o.sample = (o, 0)) ∧
    (0 < o.frequency → o.frequency ≤ (o.sampleRate : ℝ) →
      0 ≤ o.sample.1.phase ∧ o.sample.1.phase < 1) := by
  constructor
  · intro hf
    unfold Oscillator.sample
    rw [if_pos hf]
  · intro hf hr
    have hrate : (0 : ℝ) < (o.sampleRate : ℝ) := lt_of_lt_of_le hf hr
    have hdiv1 : o.frequency / (o.sampleRate : ℝ) ≤ 1 := (div_le_one hrate).mpr hr
    have hdiv0 : 0 < o.frequency / (o.sampleRate : ℝ) := div_pos hf hrate
    unfold Oscillator.sample
    rw [if_neg (not_le.mpr hf)]
    dsimp only
    by_cases h1 : 1 ≤ o.phase + o.frequency / (o.sampleRate : ℝ)
    · rw [if_pos h1]
      constructor <;> [linarith; linarith]
    · rw [if_neg h1]
      constructor <;> [linarith; linarith]


/-- Witness for C10 at a concrete oscillator. -/
theorem sample_phase_invariant_witness :
    (0 ≤ oscWitC.phase ∧ oscWitC.phase < 1) ∧
    ((oscWitC.frequency ≤ 0 → oscWitC.sample = (oscWitC, 0)) ∧
     (0 < oscWitC.frequency → oscWitC.frequency ≤ (oscWitC.sampleRate : ℝ) →
       0 ≤ oscWitC.sample.1.phase ∧ oscWitC.sample.1.phase < 1)) :=
  ⟨⟨le_refl 0, zero_lt_one⟩, sample_phase_invariant oscWitC (le_refl 0) zero_lt_one⟩

lemma tickChannel_inactive (song : Song) (ts : ℕ) (cs : ChannelState)
    (h : cs.active = false) : tickChannel song ts cs = some cs := by
  simp [tickChannel, h]

lemma tickChannelN_inactive (song : Song) (ts n : ℕ) (cs : ChannelState)
    (h : cs.active = false) : tickChannelN song ts n cs = some cs := by
  induction n with
  | zero => rfl
  | succ n ih =>
    rw [tickChannelN]
    rw [tickChannel_inactive song ts cs h]
    exact ih

lemma processEnvelope_phase3 (env : Envelope) (ts : ℕ) (cs : ChannelState)
    (hph : cs.envPhase = 3) :
    cs.processEnvelope (some env) ts =
      if env.release = 0 ∨ cs.volume ≤ 1/1000 then
        { cs with volume := 0, active := false }
      else
        let envPos := cs.envPos + 1 / (env.release : ℚ)
        let volume := cs.volume * (1 - envPos * (1/10))
        if volume ≤ 1/1000 then
          { cs with envPos := envPos, volume := 0, active := false }
        else { cs with envPos := envPos, volume := volume } := by
  unfold ChannelState.processEnvelope
  rw [hph]

lemma processEnvelope_release (env : Envelope) (ts : ℕ) (cs : ChannelState)
    (hph : cs.envPhase = 3)
    (hfall : (cs.processEnvelope (some env) ts).volume ≤ 1/1000) :
    (cs.processEnvelope (some env) ts).volume = 0 ∧
    (cs.processEnvelope (some env) ts).active = false := by
  rw [processEnvelope_phase3 env ts cs hph] at hfall ⊢
  by_cases h0 : env.release = 0 ∨ cs.volume ≤ 1/1000
  · rw [if_pos h0] at hfall ⊢
    exact ⟨rfl, rfl⟩
  · rw [if_neg h0] at hfall ⊢
    dsimp only at hfall ⊢
    by_cases h1 : cs.volume * (1 - (cs.envPos + 1 / (env.release : ℚ)) * (1/10)) ≤ 1/1000
    · rw [if_pos h1]
      exact ⟨rfl, rfl⟩
    · rw [if_neg h1] at hfall ⊢
      exact absurd hfall h1

/-- C7: a voice in the release envelope phase whose volume falls to or below
the 0.001 threshold during `ProcessEnvelope` gets volume 0 and `Active =
false` in that same call; and an inactive voice is skipped by every subsequent
per-tick update, so it stays in exactly that state (inactive, volume
unchanged at zero) until a new note is triggered — the deactivation happens
once and is never repeated. -/
theorem release_deactivation (env : Envelope) (ts n : ℕ) (song : Song)
    (cs cs2 : ChannelState)
    (hph : cs.envPhase = 3)
    (hfall : (cs.processEnvelope (some env) ts).volume ≤ 1/1000)
    (hinact : cs2.active = false) :
    (cs.processEnvelope (some env) ts).volume = 0 ∧
    (cs.processEnvelope (some env) ts).active = false ∧
    tickChannelN song ts n cs2 = some cs2 :=
  ⟨(processEnvelope_release env ts cs hph hfall).1,
   (processEnvelope_release env ts cs hph hfall).2,
   tickChannelN_inactive song ts n cs2 hinact⟩

/-- Witness for C7 at a concrete released voice (zero-release envelope) and a
concrete inactive voice followed for three ticks. -/
theorem release_deactivation_witness :
    csRelWit.envPhase = 3 ∧
    (csRelWit.processEnvelope (some envWitRel) 882).volume ≤ 1/1000 ∧
    (newChannelState 44100).active = false ∧
    ((csRelWit.processEnvelope (some envWitRel) 882).volume = 0 ∧
     (csRelWit.processEnvelope (some envWitRel) 882).active = false ∧
     tickChannelN songWit0 882 3 (newChannelState 44100) = some (newChannelState 44100)) := by
  have hf : (csRelWit.processEnvelope (some envWitRel) 882).volume ≤ 1/1000 := by
    rw [show (csRelWit.processEnvelope (some envWitRel) 882).volume = 0 from rfl]
    norm_num
  exact ⟨rfl, hf, rfl,
    release_deactivation envWitRel 882 3 songWit0 csRelWit (newChannelState 44100) rfl hf rfl⟩

lemma processEffect_channels_ne (p p' : Player) (ch j : ℕ) (fx : Effect)
    (hne : j ≠ ch) (h : p.processEffect ch fx = some p') :
    p'.channels.get? j = p.channels.get? j := by
  have hset : ∀ cs1 : ChannelState, (p.channels.set ch cs1).get? j = p.channels.get? j :=
    fun cs1 => List.get?_set_ne _ _ (Ne.symm hne)
  rw [Player.processEffect] at h
  by_cases h0 : fx.type = 0 ∧ fx.param = 0
  · rw [if_pos h0] at h
    cases h
    rfl
  rw [if_neg h0] at h
  rcases hget : p.channels.get? ch with _ | cs
  · rw [hget] at h
    exact absurd h (by simp)
  rw [hget] at h
  dsimp only at h
  by_cases h1 : fx.type = fxArpeggio
  · rw [if_pos h1] at h
    by_cases h1b : fx.param ≠ 0
    · rw [if_pos h1b] at h
      cases h
      exact hset _
    · rw [if_neg h1b] at h
      cases h
      rfl
  rw [if_neg h1] at h
  by_cases h2 : fx.type = fxSlideUp
  · rw [if_pos h2] at h
    cases h
    exact hset _
  rw [if_neg h2] at h
  by_cases h3 : fx.type = fxSlideDown
  · rw [if_pos h3] at h
    cases h
    exact hset _
  rw [if_neg h3] at h
  by_cases h4 : fx.type = fxPortamento
  · rw [if_pos h4] at h
    cases h
    exact hset _
  rw [if_neg h4] at h
  by_cases h5 : fx.type = fxVibrato
  · rw [if_pos h5] at h
    cases h
    exact hset _
  rw [if_neg h5] at h
  by_cases h6 : fx.type = fxVolume
  · rw [if_pos h6] at h
    by_cases h6b : fx.param ≤ 64
    · rw [if_pos h6b] at h
      cases h
      exact hset _
    · rw [if_neg h6b] at h
      cases h
      rfl
  rw [if_neg h6] at h
  by_cases h7 : fx.type = fxSpeed
  · rw [if_pos h7] at h
    by_cases h7b : fx.param < 32
    · rw [if_pos h7b] at h
      cases h
      rfl
    · rw [if_neg h7b] at h
      cases h
      rfl
  rw [if_neg h7] at h
  by_cases h8 : fx.type = fxOrnament
  · rw [if_pos h8] at h
    by_cases h8b : fx.param < p.song.ornaments.length
    · rw [if_pos h8b] at h
      cases h
      exact hset _
    · rw [if_neg h8b] at h
      cases h
      rfl
  rw [if_neg h8] at h
  by_cases h9 : fx.type = fxEcho
  · rw [if_pos h9] at h
    cases h
    exact hset _
  rw [if_neg h9] at h
  by_cases h10 : fx.type = fxDuty
  · rw [if_pos h10] at h
    cases h
    exact hset _
  rw [if_neg h10] at h
  cases h
  rfl

/-- C8: an effect command addressed to channel `ch` leaves the voice state of
every other channel unchanged — effect side effects are confined to the
addressed channel (the speed/tempo effect touches only the song timing, and
no branch reads or writes another channel's `ChannelState`). -/
theorem processEffect_confined (p p' : Player) (ch j : ℕ) (fx : Effect)
    (hne : j ≠ ch) (h : p.processEffect ch fx = some p') :
    p'.channels.get? j = p.channels.get? j :=
  processEffect_channels_ne p p' ch j fx hne h

/-- Witness for C8: an arpeggio effect on channel 0 of a concrete two-channel
player leaves channel 1 untouched. -/
theorem processEffect_confined_witness :
    (1 : ℕ) ≠ 0 ∧
    playerWit8.processEffect 0 { type := fxArpeggio, param := 1 } = some playerWit8 ∧
    playerWit8.channels.get? 1 = playerWit8.channels.get? 1 :=
  ⟨one_ne_zero, rfl,
   processEffect_confined playerWit8 playerWit8 0 1 { type := fxArpeggio, param := 1 }
     one_ne_zero rfl⟩

lemma int8wrap_eq (z : ℤ) (h1 : -128 ≤ z) (h2 : z ≤ 127) : int8wrap z = z := by
  unfold int8wrap
  have h3 : (z + 128).emod 256 = z + 128 := Int.emod_eq_of_lt (by omega) (by omega)
  omega

/-- C6: one ornament step on a voice whose cursor is inside the value sequence
adds the value under the cursor to the base note as a semitone offset (and
re-derives the frequency), then advances the cursor by one; when the cursor
would reach the sequence length `L` it snaps to the loop index when that is
non-negative and otherwise clamps to `L - 1` — in particular, with no loop a
cursor already at `L - 1` stays at `L - 1` on this and hence every later tick. -/
theorem ornament_cursor_step (orn : Ornament) (cs : ChannelState) (off : ℤ)
    (hL : 1 ≤ orn.values.length)
    (hpos : cs.ornPos < orn.values.length)
    (hoff : orn.values.get? cs.ornPos = some off)
    (hlo : -128 ≤ cs.baseNote + off) (hhi : cs.baseNote + off ≤ 127) :
    ∃ cs', cs.processOrnament (some orn) = some cs' ∧
      cs'.note = cs.baseNote + off ∧
      cs'.frequency = noteToFreq (cs.baseNote + off) ∧
      cs'.osc.frequency = noteToFreq (cs.baseNote + off) ∧
      cs'.ornPos = (if cs.ornPos + 1 < orn.values.length then cs.ornPos + 1
                    else if 0 ≤ orn.loop then orn.loop.toNat
                    else orn.values.length - 1) ∧
      (orn.loop < 0 → cs.ornPos = orn.values.length - 1 →
        cs'.ornPos = orn.values.length - 1) := by
  have hne : orn.values.isEmpty = false := by
    cases hv : orn.values with
    | nil => rw [hv] at hL; exact absurd hL (by simp)
    | cons a l => simp [List.isEmpty]
  unfold ChannelState.processOrnament
  dsimp only
  rw [if_neg (by rw [hne]; exact Bool.false_ne_true)]
  rw [hoff]
  dsimp only
  rw [if_pos (Nat.succ_le_succ (Nat.zero_le _))]
  rw [int8wrap_eq _ hlo hhi]
  refine ⟨_, rfl, rfl, rfl, rfl, ?_, ?_⟩
  · by_cases hlt : cs.ornPos + 1 < orn.values.length
    · rw [if_pos hlt, if_neg (by omega)]
    · rw [if_neg hlt, if_pos (by omega)]
  · intro hloop hlast
    have hnotlt : ¬ cs.ornPos + 1 < orn.values.length := by omega
    rw [if_pos (by omega), if_neg (by omega)]

/-- Witness for C6 at a concrete 3-value ornament with loop index 0 and a
voice whose cursor sits at the last value. -/
theorem ornament_cursor_step_witness :
    1 ≤ ornWit.values.length ∧
    csOrnWit.ornPos < ornWit.values.length ∧
    ornWit.values.get? csOrnWit.ornPos = some 7 ∧
    -128 ≤ csOrnWit.baseNote + 7 ∧ csOrnWit.baseNote + 7 ≤ 127 ∧
    (∃ cs', csOrnWit.processOrnament (some ornWit) = some cs' ∧
      cs'.note = csOrnWit.baseNote + 7 ∧
      cs'.frequency = noteToFreq (csOrnWit.baseNote + 7) ∧
      cs'.osc.frequency = noteToFreq (csOrnWit.baseNote + 7) ∧
      cs'.ornPos = (if csOrnWit.ornPos + 1 < ornWit.values.length then csOrnWit.ornPos + 1
                    else if 0 ≤ ornWit.loop then ornWit.loop.toNat
                    else ornWit.values.length - 1) ∧
      (ornWit.loop < 0 → csOrnWit.ornPos = ornWit.values.length - 1 →
        cs'.ornPos = ornWit.values.length - 1)) :=
  ⟨by decide, by decide, rfl, by decide, by decide,
   ornament_cursor_step ornWit csOrnWit 7 (by decide) (by decide) rfl (by decide) (by decide)⟩

lemma triggerNote_fields (cs : ChannelState) (pitch : ℤ) (inst : Option Instrument)
    (vol : ℤ) :
    (cs.triggerNote pitch inst vol).active = true ∧
    (cs.triggerNote pitch inst vol).osc.phase = 0 ∧
    (cs.triggerNote pitch inst vol).frequency = noteToFreq pitch ∧
    (cs.triggerNote pitch inst vol).osc.frequency = noteToFreq pitch ∧
    (cs.triggerNote pitch inst vol).envPhase = 0 ∧
    (cs.triggerNote pitch inst vol).envPos = 0 ∧
    (cs.triggerNote pitch inst vol).ornPos = 0 ∧
    (cs.triggerNote pitch inst vol).ornTick = 0 ∧
    (cs.triggerNote pitch inst vol).targetVol
      = (if 0 ≤ vol then (vol : ℚ) / 64
         else match inst with
              | some i => (i.volume : ℚ) / 64
              | none => cs.targetVol) := by
  cases inst with
  | none =>
    dsimp only [ChannelState.triggerNote]
    by_cases hv : 0 ≤ vol
    · rw [if_pos hv, if_pos hv]
      exact ⟨rfl, rfl, rfl, rfl, rfl, rfl, rfl, rfl, rfl⟩
    · rw [if_neg hv, if_neg hv]
      exact ⟨rfl, rfl, rfl, rfl, rfl, rfl, rfl, rfl, rfl⟩
  | some i =>
    dsimp only [ChannelState.triggerNote]
    by_cases hv : 0 ≤ vol
    · have hv' : ¬ vol < 0 := not_lt.mpr hv
      rw [if_neg hv', if_pos hv, if_pos hv]
      by_cases hd : 0 < i.duty
      · rw [if_pos hd]
        exact ⟨rfl, rfl, rfl, rfl, rfl, rfl, rfl, rfl, rfl⟩
      · rw [if_neg hd]
        exact ⟨rfl, rfl, rfl, rfl, rfl, rfl, rfl, rfl, rfl⟩
    · have hv' : vol < 0 := not_le.mp hv
      rw [if_pos hv', if_neg hv, if_neg hv]
      by_cases hd : 0 < i.duty
      · rw [if_pos hd]
        exact ⟨rfl, rfl, rfl, rfl, rfl, rfl, rfl, rfl, rfl⟩
      · rw [if_neg hd]
        exact ⟨rfl, rfl, rfl, rfl, rfl, rfl, rfl, rfl, rfl⟩

lemma processEffect_spec (p p' : Player) (ch : ℕ) (fx : Effect) (cs : ChannelState)
    (hcs : p.channels.get? ch = some cs)
    (h : p.processEffect ch fx = some p') :
    p'.channels.get? ch = some (effectChannel p.song.ornaments.length fx cs) ∧
    p'.song.instruments = p.song.instruments ∧
    p'.song.ornaments = p.song.ornaments ∧
    p'.song.patterns = p.song.patterns ∧
    p'.song.order = p.song.order ∧
    p'.song.channels = p.song.channels ∧
    p'.song.chanConfig = p.song.chanConfig ∧
    p'.playing = p.playing ∧
    p'.position = p.position ∧
    p'.pattern = p.pattern ∧
    p'.row = p.row ∧
    p'.tick = p.tick ∧
    p'.tickCounter = p.tickCounter ∧
    p'.sampleRate = p.sampleRate ∧
    p'.channels.length = p.channels.length ∧
    p'.echoBuffers = p.echoBuffers ∧
    p'.echoPos = p.echoPos ∧
    (fx.type ≠ fxSpeed → p'.song.speed = p.song.speed ∧ p'.song.tempo = p.song.tempo ∧
      p'.tickSamples = p.tickSamples) := by
  obtain ⟨hlt, -⟩ := List.get?_eq_some.mp hcs
  have hset : (p.channels.set ch (effectChannel p.song.ornaments.length fx cs)).get? ch
      = some (effectChannel p.song.ornaments.length fx cs) :=
    List.get?_set_eq_of_lt _ (by simpa using hlt)
  rw [Player.processEffect] at h
  by_cases h0 : fx.type = 0 ∧ fx.param = 0
  · rw [if_pos h0] at h
    cases h
    rw [effectChannel, if_pos h0]
    exact ⟨hcs, rfl, rfl, rfl, rfl, rfl, rfl, rfl, rfl, rfl, rfl, rfl, rfl, rfl, rfl, rfl,
      rfl, fun hne => ⟨rfl, rfl, rfl⟩⟩
  rw [if_neg h0, hcs] at h
  dsimp only at h
  by_cases h1 : fx.type = fxArpeggio
  · rw [if_pos h1] at h
    by_cases h1b : fx.param ≠ 0
    · rw [if_pos h1b] at h
      cases h
      rw [effectChannel, if_neg h0, if_pos h1, if_pos h1b]
      exact ⟨List.get?_set_eq_of_lt _ hlt, rfl, rfl, rfl, rfl, rfl, rfl, rfl, rfl, rfl, rfl, rfl,
        rfl, rfl, List.length_set _ _ _, rfl, rfl, fun hne => ⟨rfl, rfl, rfl⟩⟩
    · rw [if_neg h1b] at h
      cases h
      rw [effectChannel, if_neg h0, if_pos h1, if_neg h1b]
      exact ⟨hcs, rfl, rfl, rfl, rfl, rfl, rfl, rfl, rfl, rfl, rfl, rfl, rfl, rfl, rfl, rfl,
        rfl, fun hne => ⟨rfl, rfl, rfl⟩⟩
  rw [if_neg h1] at h
  by_cases h2 : fx.type = fxSlideUp
  · rw [if_pos h2] at h
    cases h
    rw [effectChannel, if_neg h0, if_neg h1, if_pos h2]
    exact ⟨List.get?_set_eq_of_lt _ hlt, rfl, rfl, rfl, rfl, rfl, rfl, rfl, rfl, rfl, rfl, rfl,
        rfl, rfl, List.length_set _ _ _, rfl, rfl, fun hne => ⟨rfl, rfl, rfl⟩⟩
  rw [if_neg h2] at h
  by_cases h3 : fx.type = fxSlideDown
  · rw [if_pos h3] at h
    cases h
    rw [effectChannel, if_neg h0, if_neg h1, if_neg h2, if_pos h3]
    exact ⟨List.get?_set_eq_of_lt _ hlt, rfl, rfl, rfl, rfl, rfl, rfl, rfl, rfl, rfl, rfl, rfl,
        rfl, rfl, List.length_set _ _ _, rfl, rfl, fun hne => ⟨rfl, rfl, rfl⟩⟩
  rw [if_neg h3] at h
  by_cases h4 : fx.type = fxPortamento
  · rw [if_pos h4] at h
    cases h
    rw [effectChannel, if_neg h0, if_neg h1, if_neg h2, if_neg h3, if_pos h4]
    exact ⟨List.get?_set_eq_of_lt _ hlt, rfl, rfl, rfl, rfl, rfl, rfl, rfl, rfl, rfl, rfl, rfl,
        rfl, rfl, List.length_set _ _ _, rfl, rfl, fun hne => ⟨rfl, rfl, rfl⟩⟩
  rw [if_neg h4] at h
  by_cases h5 : fx.type = fxVibrato
  · rw [if_pos h5] at h
    cases h
    rw [effectChannel, if_neg h0, if_neg h1, if_neg h2, if_neg h3, if_neg h4, if_pos h5]
    exact ⟨List.get?_set_eq_of_lt _ hlt, rfl, rfl, rfl, rfl, rfl, rfl, rfl, rfl, rfl, rfl, rfl,
        rfl, rfl, List.length_set _ _ _, rfl, rfl, fun hne => ⟨rfl, rfl, rfl⟩⟩
  rw [if_neg h5] at h
  by_cases h6 : fx.type = fxVolume
  · rw [if_pos h6] at h
    by_cases h6b : fx.param ≤ 64
    · rw [if_pos h6b] at h
      cases h
      rw [effectChannel, if_neg h0, if_neg h1, if_neg h2, if_neg h3, if_neg h4, if_neg h5,
        if_pos h6, if_pos h6b]
      exact ⟨List.get?_set_eq_of_lt _ hlt, rfl, rfl, rfl, rfl, rfl, rfl, rfl, rfl, rfl, rfl, rfl,
        rfl, rfl, List.length_set _ _ _, rfl, rfl, fun hne => ⟨rfl, rfl, rfl⟩⟩
    · rw [if_neg h6b] at h
      cases h
      rw [effectChannel, if_neg h0, if_neg h1, if_neg h2, if_neg h3, if_neg h4, if_neg h5,
        if_pos h6, if_neg h6b]
      exact ⟨hcs, rfl, rfl, rfl, rfl, rfl, rfl, rfl, rfl, rfl, rfl, rfl, rfl, rfl, rfl, rfl,
        rfl, fun hne => ⟨rfl, rfl, rfl⟩⟩
  rw [if_neg h6] at h
  by_cases h7 : fx.type = fxSpeed
  · rw [if_pos h7] at h
    by_cases h7b : fx.param < 32
    · rw [if_pos h7b] at h
      cases h
      rw [effectChannel, if_neg h0, if_neg h1, if_neg h2, if_neg h3, if_neg h4, if_neg h5,
        if_neg h6, if_pos h7]
      exact ⟨hcs, rfl, rfl, rfl, rfl, rfl, rfl, rfl, rfl, rfl, rfl, rfl, rfl, rfl, rfl, rfl,
        rfl, fun hne => absurd h7 hne⟩
    · rw [if_neg h7b] at h
      cases h
      rw [effectChannel, if_neg h0, if_neg h1, if_neg h2, if_neg h3, if_neg h4, if_neg h5,
        if_neg h6, if_pos h7]
      exact ⟨hcs, rfl, rfl, rfl, rfl, rfl, rfl, rfl, rfl, rfl, rfl, rfl, rfl, rfl, rfl, rfl,
        rfl, fun hne => absurd h7 hne⟩
  rw [if_neg h7] at h
  by_cases h8 : fx.type = fxOrnament
  · rw [if_pos h8] at h
    by_cases h8b : fx.param < p.song.ornaments.length
    · rw [if_pos h8b] at h
      cases h
      rw [effectChannel, if_neg h0, if_neg h1, if_neg h2, if_neg h3, if_neg h4, if_neg h5,
        if_neg h6, if_neg h7, if_pos h8, if_pos h8b]
      exact ⟨List.get?_set_eq_of_lt _ hlt, rfl, rfl, rfl, rfl, rfl, rfl, rfl, rfl, rfl, rfl, rfl,
        rfl, rfl, List.length_set _ _ _, rfl, rfl, fun hne => ⟨rfl, rfl, rfl⟩⟩
    · rw [if_neg h8b] at h
      cases h
      rw [effectChannel, if_neg h0, if_neg h1, if_neg h2, if_neg h3, if_neg h4, if_neg h5,
        if_neg h6, if_neg h7, if_pos h8, if_neg h8b]
      exact ⟨hcs, rfl, rfl, rfl, rfl, rfl, rfl, rfl, rfl, rfl, rfl, rfl, rfl, rfl, rfl, rfl,
        rfl, fun hne => ⟨rfl, rfl, rfl⟩⟩
  rw [if_neg h8] at h
  by_cases h9 : fx.type = fxEcho
  · rw [if_pos h9] at h
    cases h
    rw [effectChannel, if_neg h0, if_neg h1, if_neg h2, if_neg h3, if_neg h4, if_neg h5,
      if_neg h6, if_neg h7, if_neg h8, if_pos h9]
    exact ⟨List.get?_set_eq_of_lt _ hlt, rfl, rfl, rfl, rfl, rfl, rfl, rfl, rfl, rfl, rfl, rfl,
        rfl, rfl, List.length_set _ _ _, rfl, rfl, fun hne => ⟨rfl, rfl, rfl⟩⟩
  rw [if_neg h9] at h
  by_cases h10 : fx.type = fxDuty
  · rw [if_pos h10] at h
    cases h
    rw [effectChannel, if_neg h0, if_neg h1, if_neg h2, if_neg h3, if_neg h4, if_neg h5,
      if_neg h6, if_neg h7, if_neg h8, if_neg h9, if_pos h10]
    exact ⟨List.get?_set_eq_of_lt _ hlt, rfl, rfl, rfl, rfl, rfl, rfl, rfl, rfl, rfl, rfl, rfl,
        rfl, rfl, List.length_set _ _ _, rfl, rfl, fun hne => ⟨rfl, rfl, rfl⟩⟩
  rw [if_neg h10] at h
  cases h
  rw [effectChannel, if_neg h0, if_neg h1, if_neg h2, if_neg h3, if_neg h4, if_neg h5,
    if_neg h6, if_neg h7, if_neg h8, if_neg h9, if_neg h10]
  exact ⟨hcs, rfl, rfl, rfl, rfl, rfl, rfl, rfl, rfl, rfl, rfl, rfl, rfl, rfl, rfl, rfl,
    rfl, fun hne => ⟨rfl, rfl, rfl⟩⟩

lemma processRowFrom_spec (nCh : ℕ) (pat : Pattern) (row : ℕ) :
    ∀ k i p p', nCh - i ≤ k → Player.processRowFrom nCh pat row i p = some p' →
      p'.song.instruments = p.song.instruments ∧
      p'.song.ornaments = p.song.ornaments ∧
      p'.song.patterns = p.song.patterns ∧
      p'.song.order = p.song.order ∧
      p'.song.channels = p.song.channels ∧
      p'.song.chanConfig = p.song.chanConfig ∧
      p'.playing = p.playing ∧
      p'.position = p.position ∧
      p'.pattern = p.pattern ∧
      p'.row = p.row ∧
      p'.tick = p.tick ∧
      p'.tickCounter = p.tickCounter ∧
      p'.sampleRate = p.sampleRate ∧
      p'.channels.length = p.channels.length ∧
      p'.echoBuffers = p.echoBuffers ∧
      p'.echoPos = p.echoPos ∧
      (∀ j, j < i → p'.channels.get? j = p.channels.get? j) ∧
      ((∀ cells note, pat.notes.get? row = some cells → note ∈ cells →
          note.effect.type ≠ fxSpeed) →
        p'.song.speed = p.song.speed ∧ p'.song.tempo = p.song.tempo ∧
        p'.tickSamples = p.tickSamples) := by
  intro k
  induction k with
  | zero =>
    intro i p p' hk h
    rw [Player.processRowFrom, dif_neg (by omega)] at h
    cases h
    exact ⟨rfl, rfl, rfl, rfl, rfl, rfl, rfl, rfl, rfl, rfl, rfl, rfl, rfl, rfl, rfl, rfl,
      fun j hj => rfl, fun hnofx => ⟨rfl, rfl, rfl⟩⟩
  | succ k ih =>
    intro i p p' hk h
    by_cases hi : i < nCh
    swap
    · rw [Player.processRowFrom, dif_neg hi] at h
      cases h
      exact ⟨rfl, rfl, rfl, rfl, rfl, rfl, rfl, rfl, rfl, rfl, rfl, rfl, rfl, rfl, rfl, rfl,
        fun j hj => rfl, fun hnofx => ⟨rfl, rfl, rfl⟩⟩
    rw [Player.processRowFrom, dif_pos hi] at h
    rcases Option.eq_none_or_eq_some (pat.notes.get? row) with hcells | ⟨cells, hcells⟩
    · rw [hcells] at h
      exact Option.noConfusion h
    rw [hcells] at h
    dsimp only at h
    by_cases hic : i < cells.length
    swap
    · rw [if_neg hic] at h
      cases h
      exact ⟨rfl, rfl, rfl, rfl, rfl, rfl, rfl, rfl, rfl, rfl, rfl, rfl, rfl, rfl, rfl, rfl,
        fun j hj => rfl, fun hnofx => ⟨rfl, rfl, rfl⟩⟩
    rw [if_pos hic] at h
    rcases Option.eq_none_or_eq_some (cells.get? i) with hni | ⟨note, hni⟩
    · rw [hni] at h
      rcases Option.eq_none_or_eq_some (p.channels.get? i) with hcsi | ⟨csi, hcsi⟩ <;>
          rw [hcsi] at h <;>
        exact Option.noConfusion h
    rcases Option.eq_none_or_eq_some (p.channels.get? i) with hcsi | ⟨csi, hcsi⟩
    · rw [hni, hcsi] at h
      exact Option.noConfusion h
    rw [hni, hcsi] at h
    dsimp only at h
    obtain ⟨hlt, -⟩ := List.get?_eq_some.mp hcsi
    generalize hp1 : (if note.pitch = -2 then
        { p with channels := p.channels.set i csi.noteOff }
      else if 0 ≤ note.pitch then
        let instNum : ℤ := (note.instrument : ℤ) - 1
        let resolved : Option Instrument × ChannelState :=
          if 0 ≤ instNum ∧ instNum < (p.song.instruments.length : ℤ) then
            (p.song.instruments.get? instNum.toNat, { csi with instrument := instNum })
          else if 0 ≤ csi.instrument ∧ csi.instrument < (p.song.instruments.length : ℤ) then
            (p.song.instruments.get? csi.instrument.toNat, csi)
          else (none, csi)
        let cs1 := resolved.2.triggerNote note.pitch resolved.1 note.volume
        { p with channels := p.channels.set i cs1 }
      else p) = p1 at h
    have hp1song : p1.song = p.song := by
      rw [← hp1]
      split_ifs <;> rfl
    have hp1len : p1.channels.length = p.channels.length := by
      rw [← hp1]
      split_ifs <;> first | exact List.length_set _ _ _ | rfl
    have hp1sched : p1.playing = p.playing ∧ p1.position = p.position ∧
        p1.pattern = p.pattern ∧ p1.row = p.row ∧ p1.tick = p.tick ∧
        p1.tickCounter = p.tickCounter ∧ p1.sampleRate = p.sampleRate ∧
        p1.tickSamples = p.tickSamples ∧ p1.echoBuffers = p.echoBuffers ∧
        p1.echoPos = p.echoPos := by
      rw [← hp1]
      split_ifs <;> exact ⟨rfl, rfl, rfl, rfl, rfl, rfl, rfl, rfl, rfl, rfl⟩
    have hp1ne : ∀ j, j ≠ i → p1.channels.get? j = p.channels.get? j := by
      intro j hj
      rw [← hp1]
      split_ifs <;> first | exact List.get?_set_ne _ _ (Ne.symm hj) | rfl
    have hp1at : ∃ csx, p1.channels.get? i = some csx := by
      rw [← hp1]
      by_cases hpm : note.pitch = -2
      · rw [if_pos hpm]
        exact ⟨_, List.get?_set_eq_of_lt _ hlt⟩
      rw [if_neg hpm]
      by_cases hp0 : 0 ≤ note.pitch
      · rw [if_pos hp0]
        dsimp only
        exact ⟨_, List.get?_set_eq_of_lt _ hlt⟩
      · rw [if_neg hp0]
        exact ⟨csi, hcsi⟩
    obtain ⟨csx, hcsx⟩ := hp1at
    rcases heff : p1.processEffect i note.effect with _ | p2
    · rw [heff] at h
      exact Option.noConfusion h
    rw [heff] at h
    obtain ⟨e1, e2, e3, e4, e5, e6, e7, e8, e9, e10, e11, e12, e13, e14, e15, e16, e17, e18⟩ :=
      processEffect_spec p1 p2 i note.effect csx hcsx heff
    obtain ⟨i1, i2, i3, i4, i5, i6, i7, i8, i9, i10, i11, i12, i13, i14, i15, i16, i17, i18⟩ :=
      ih (i + 1) p2 p' (by omega) h
    obtain ⟨s1, s2, s3, s4, s5, s6, s7, s8, s9, s10⟩ := hp1sched
    refine ⟨?_, ?_, ?_, ?_, ?_, ?_, ?_, ?_, ?_, ?_, ?_, ?_, ?_, ?_, ?_, ?_, ?_, ?_⟩
    · rw [i1, e2, hp1song]
    · rw [i2, e3, hp1song]
    · rw [i3, e4, hp1song]
    · rw [i4, e5, hp1song]
    · rw [i5, e6, hp1song]
    · rw [i6, e7, hp1song]
    · rw [i7, e8, s1]
    · rw [i8, e9, s2]
    · rw [i9, e10, s3]
    · rw [i10, e11, s4]
    · rw [i11, e12, s5]
    · rw [i12, e13, s6]
    · rw [i13, e14, s7]
    · rw [i14, e15, hp1len]
    · rw [i15, e16, s9]
    · rw [i16, e17, s10]
    · intro j hj
      rw [i17 j (by omega), processEffect_channels_ne p1 p2 i j note.effect (by omega) heff,
        hp1ne j (by omega)]
    · intro hnofx
      have hfx : note.effect.type ≠ fxSpeed :=
        hnofx cells note hcells (List.get?_mem hni)
      obtain ⟨t1, t2, t3⟩ := e18 hfx
      obtain ⟨u1, u2, u3⟩ := i18 hnofx
      refine ⟨?_, ?_, ?_⟩
      · rw [u1, t1, hp1song]
      · rw [u2, t2, hp1song]
      · rw [u3, t3, s8]

lemma processRowFrom_at (nCh : ℕ) (pat : Pattern) (row ch : ℕ) :
    ∀ k i p p', nCh - i ≤ k → i ≤ ch → ch < nCh →
      Player.processRowFrom nCh pat row i p = some p' →
      ∀ cells note cs,
        pat.notes.get? row = some cells →
        cells.get? ch = some note →
        ch < cells.length →
        p.channels.get? ch = some cs →
        p'.channels.get? ch
          = some (effectChannel p.song.ornaments.length note.effect
              (rowCellNote p.song.instruments note cs)) := by
  intro k
  induction k with
  | zero =>
    intro i p p' hk hle hch h
    omega
  | succ k ih =>
    intro i p p' hk hle hch h cells note cs hcells hnote hchlen hcs
    have hi : i < nCh := by omega
    rw [Player.processRowFrom, dif_pos hi] at h
    rw [hcells] at h
    dsimp only at h
    by_cases hieq : i = ch
    · subst hieq
      rw [if_pos hchlen, hnote, hcs] at h
      dsimp only at h
      obtain ⟨hlt, -⟩ := List.get?_eq_some.mp hcs
      generalize hp1 : (if note.pitch = -2 then
          { p with channels := p.channels.set i cs.noteOff }
        else if 0 ≤ note.pitch then
          let instNum : ℤ := (note.instrument : ℤ) - 1
          let resolved : Option Instrument × ChannelState :=
            if 0 ≤ instNum ∧ instNum < (p.song.instruments.length : ℤ) then
              (p.song.instruments.get? instNum.toNat, { cs with instrument := instNum })
            else if 0 ≤ cs.instrument ∧ cs.instrument < (p.song.instruments.length : ℤ) then
              (p.song.instruments.get? cs.instrument.toNat, cs)
            else (none, cs)
          let cs1 := resolved.2.triggerNote note.pitch resolved.1 note.volume
          { p with channels := p.channels.set i cs1 }
        else p) = p1 at h
      have hp1song : p1.song = p.song := by
        rw [← hp1]
        split_ifs <;> rfl
      have hat : p1.channels.get? i = some (rowCellNote p.song.instruments note cs) := by
        rw [← hp1]
        unfold rowCellNote
        by_cases hpm : note.pitch = -2
        · rw [if_pos hpm, if_pos hpm]
          exact List.get?_set_eq_of_lt _ hlt
        rw [if_neg hpm, if_neg hpm]
        by_cases hp0 : 0 ≤ note.pitch
        · rw [if_pos hp0, if_pos hp0]
          dsimp only
          exact List.get?_set_eq_of_lt _ hlt
        · rw [if_neg hp0, if_neg hp0]
          exact hcs
      rcases Option.eq_none_or_eq_some (p1.processEffect i note.effect) with heff | ⟨p2, heff⟩
      · rw [heff] at h
        exact Option.noConfusion h
      rw [heff] at h
      obtain ⟨e1, -, -, -, -, -, -, -, -, -, -, -, -, -, -, -, -, -⟩ :=
        processEffect_spec p1 p2 i note.effect _ hat heff
      obtain ⟨-, -, -, -, -, -, -, -, -, -, -, -, -, -, -, -, i17, -⟩ :=
        processRowFrom_spec nCh pat row k (i + 1) p2 p' (by omega) h
      rw [i17 i (by omega), e1, hp1song]
    · have hilt : i < cells.length := by omega
      rw [if_pos hilt] at h
      rcases Option.eq_none_or_eq_some (cells.get? i) with hni | ⟨notei, hni⟩
      · exact absurd (List.get?_eq_none.mp hni) (by omega)
      rcases Option.eq_none_or_eq_some (p.channels.get? i) with hcsi | ⟨csi, hcsi⟩
      · rw [hni, hcsi] at h
        exact Option.noConfusion h
      rw [hni, hcsi] at h
      dsimp only at h
      obtain ⟨hlti, -⟩ := List.get?_eq_some.mp hcsi
      generalize hp1 : (if notei.pitch = -2 then
          { p with channels := p.channels.set i csi.noteOff }
        else if 0 ≤ notei.pitch then
          let instNum : ℤ := (notei.instrument : ℤ) - 1
          let resolved : Option Instrument × ChannelState :=
            if 0 ≤ instNum ∧ instNum < (p.song.instruments.length : ℤ) then
              (p.song.instruments.get? instNum.toNat, { csi with instrument := instNum })
            else if 0 ≤ csi.instrument ∧ csi.instrument < (p.song.instruments.length : ℤ) then
              (p.song.instruments.get? csi.instrument.toNat, csi)
            else (none, csi)
          let cs1 := resolved.2.triggerNote notei.pitch resolved.1 notei.volume
          { p with channels := p.channels.set i cs1 }
        else p) = p1 at h
      have hp1song : p1.song = p.song := by
        rw [← hp1]
        split_ifs <;> rfl
      have hp1ch : p1.channels.get? ch = some cs := by
        rw [← hp1]
        by_cases hpm : notei.pitch = -2
        · rw [if_pos hpm]
          rw [List.get?_set_ne _ _ (show i ≠ ch from hieq)]
          exact hcs
        rw [if_neg hpm]
        by_cases hp0 : 0 ≤ notei.pitch
        · rw [if_pos hp0]
          dsimp only
          rw [List.get?_set_ne _ _ (show i ≠ ch from hieq)]
          exact hcs
        · rw [if_neg hp0]
          exact hcs
      have hp1at : ∃ csx, p1.channels.get? i = some csx := by
        rw [← hp1]
        by_cases hpm : notei.pitch = -2
        · rw [if_pos hpm]
          exact ⟨_, List.get?_set_eq_of_lt _ hlti⟩
        rw [if_neg hpm]
        by_cases hp0 : 0 ≤ notei.pitch
        · rw [if_pos hp0]
          dsimp only
          exact ⟨_, List.get?_set_eq_of_lt _ hlti⟩
        · rw [if_neg hp0]
          exact ⟨csi, hcsi⟩
      obtain ⟨csx, hcsx⟩ := hp1at
      rcases Option.eq_none_or_eq_some (p1.processEffect i notei.effect) with heff | ⟨p2, heff⟩
      · rw [heff] at h
        exact Option.noConfusion h
      rw [heff] at h
      obtain ⟨-, e2, e3, -, -, -, -, -, -, -, -, -, -, -, -, -, -, -⟩ :=
        processEffect_spec p1 p2 i notei.effect csx hcsx heff
      have hch2 : p2.channels.get? ch = some cs := by
        rw [processEffect_channels_ne p1 p2 i ch notei.effect (Ne.symm hieq) heff]
        exact hp1ch
      have := ih (i + 1) p2 p' (by omega) (by omega) hch h cells note cs hcells hnote hchlen hch2
      rw [this, e2, e3, hp1song]

lemma processRow_at (p p' : Player) (pat : Pattern) (cells : List Note) (note : Note)
    (cs : ChannelState) (ch : ℕ)
    (hpat : p.song.patterns.get? p.pattern = some pat)
    (hrow : p.row < pat.rows)
    (hcells : pat.notes.get? p.row = some cells)
    (hnote : cells.get? ch = some note)
    (hch : ch < p.song.channels)
    (hcs : p.channels.get? ch = some cs)
    (h : p.processRow = some p') :
    p'.channels.get? ch
      = some (effectChannel p.song.ornaments.length note.effect
          (rowCellNote p.song.instruments note cs)) := by
  unfold Player.processRow at h
  obtain ⟨hplt, -⟩ := List.get?_eq_some.mp hpat
  rw [if_neg (not_le.mpr hplt), hpat] at h
  dsimp only at h
  rw [if_neg (not_le.mpr hrow)] at h
  obtain ⟨hchlen, -⟩ := List.get?_eq_some.mp hnote
  exact processRowFrom_at p.song.channels pat p.row ch p.song.channels 0 p p'
    (by omega) (Nat.zero_le _) hch h cells note cs hcells hnote hchlen hcs

lemma effectChannel_preserves (ornLen : ℕ) (fx : Effect) (cs : ChannelState)
    (hfx : fx.type ≠ fxVolume) :
    (effectChannel ornLen fx cs).active = cs.active ∧
    (effectChannel ornLen fx cs).osc.phase = cs.osc.phase ∧
    (effectChannel ornLen fx cs).osc.frequency = cs.osc.frequency ∧
    (effectChannel ornLen fx cs).frequency = cs.frequency ∧
    (effectChannel ornLen fx cs).envPhase = cs.envPhase ∧
    (effectChannel ornLen fx cs).envPos = cs.envPos ∧
    (effectChannel ornLen fx cs).targetVol = cs.targetVol ∧
    ((effectChannel ornLen fx cs).ornPos = cs.ornPos ∨
      (effectChannel ornLen fx cs).ornPos = 0) := by
  unfold effectChannel
  by_cases h0 : fx.type = 0 ∧ fx.param = 0
  · rw [if_pos h0]
    exact ⟨rfl, rfl, rfl, rfl, rfl, rfl, rfl, Or.inl rfl⟩
  rw [if_neg h0]
  by_cases h1 : fx.type = fxArpeggio
  · rw [if_pos h1]
    by_cases h1b : fx.param ≠ 0
    · rw [if_pos h1b]
      exact ⟨rfl, rfl, rfl, rfl, rfl, rfl, rfl, Or.inl rfl⟩
    · rw [if_neg h1b]
      exact ⟨rfl, rfl, rfl, rfl, rfl, rfl, rfl, Or.inl rfl⟩
  rw [if_neg h1]
  by_cases h2 : fx.type = fxSlideUp
  · rw [if_pos h2]
    exact ⟨rfl, rfl, rfl, rfl, rfl, rfl, rfl, Or.inl rfl⟩
  rw [if_neg h2]
  by_cases h3 : fx.type = fxSlideDown
  · rw [if_pos h3]
    exact ⟨rfl, rfl, rfl, rfl, rfl, rfl, rfl, Or.inl rfl⟩
  rw [if_neg h3]
  by_cases h4 : fx.type = fxPortamento
  · rw [if_pos h4]
    exact ⟨rfl, rfl, rfl, rfl, rfl, rfl, rfl, Or.inl rfl⟩
  rw [if_neg h4]
  by_cases h5 : fx.type = fxVibrato
  · rw [if_pos h5]
    exact ⟨rfl, rfl, rfl, rfl, rfl, rfl, rfl, Or.inl rfl⟩
  rw [if_neg h5]
  by_cases h6 : fx.type = fxVolume
  · exact absurd h6 hfx
  rw [if_neg h6]
  by_cases h7 : fx.type = fxSpeed
  · rw [if_pos h7]
    exact ⟨rfl, rfl, rfl, rfl, rfl, rfl, rfl, Or.inl rfl⟩
  rw [if_neg h7]
  by_cases h8 : fx.type = fxOrnament
  · rw [if_pos h8]
    by_cases h8b : fx.param < ornLen
    · rw [if_pos h8b]
      exact ⟨rfl, rfl, rfl, rfl, rfl, rfl, rfl, Or.inr rfl⟩
    · rw [if_neg h8b]
      exact ⟨rfl, rfl, rfl, rfl, rfl, rfl, rfl, Or.inl rfl⟩
  rw [if_neg h8]
  by_cases h9 : fx.type = fxEcho
  · rw [if_pos h9]
    exact ⟨rfl, rfl, rfl, rfl, rfl, rfl, rfl, Or.inl rfl⟩
  rw [if_neg h9]
  by_cases h10 : fx.type = fxDuty
  · rw [if_pos h10]
    exact ⟨rfl, rfl, rfl, rfl, rfl, rfl, rfl, Or.inl rfl⟩
  rw [if_neg h10]
  exact ⟨rfl, rfl, rfl, rfl, rfl, rfl, rfl, Or.inl rfl⟩

lemma rowCellNote_noteOn (instruments : List Instrument) (note : Note)
    (cs : ChannelState) (hpitch : 0 ≤ note.pitch) :
    ∃ cs0 : ChannelState,
      rowCellNote instruments note cs
        = cs0.triggerNote note.pitch (resolveInstrument instruments note cs) note.volume ∧
      cs0.targetVol = cs.targetVol := by
  unfold rowCellNote resolveInstrument
  rw [if_neg (show ¬ note.pitch = -2 by omega)]
  rw [if_pos hpitch]
  dsimp only
  by_cases ha : 0 ≤ (note.instrument : ℤ) - 1 ∧
      (note.instrument : ℤ) - 1 < (instruments.length : ℤ)
  · rw [if_pos ha, if_pos ha]
    exact ⟨_, rfl, rfl⟩
  · rw [if_neg ha, if_neg ha]
    by_cases hb : 0 ≤ cs.instrument ∧ cs.instrument < (instruments.length : ℤ)
    · rw [if_pos hb, if_pos hb]
      exact ⟨cs, rfl, rfl⟩
    · rw [if_neg hb, if_neg hb]
      exact ⟨cs, rfl, rfl⟩

/-- C4 (amended): when `ProcessRow` reads a cell with pitch `p ≥ 0` on channel
`ch` and the cell's effect is not the set-volume command, the channel's voice
afterwards is active with oscillator phase 0, frequency
`440 * 2^((p - 57)/12)`, envelope phase/position and ornament cursor 0, and
target volume the explicit cell override `/64` when that is `≥ 0`, else the
resolved instrument's default volume `/64`, else (no instrument resolvable)
the channel's previous target volume. -/
theorem note_trigger_state (p p' : Player) (pat : Pattern) (cells : List Note)
    (note : Note) (cs : ChannelState) (ch : ℕ)
    (hpat : p.song.patterns.get? p.pattern = some pat)
    (hrow : p.row < pat.rows)
    (hcells : pat.notes.get? p.row = some cells)
    (hnote : cells.get? ch = some note)
    (hch : ch < p.song.channels)
    (hcs : p.channels.get? ch = some cs)
    (hpitch : 0 ≤ note.pitch)
    (hfx : note.effect.type ≠ fxVolume)
    (h : p.processRow = some p') :
    ∃ cs', p'.channels.get? ch = some cs' ∧
      cs'.active = true ∧
      cs'.osc.phase = 0 ∧
      cs'.frequency = 440 * (2 : ℝ) ^ (((note.pitch : ℝ) - 57) / 12) ∧
      cs'.osc.frequency = noteToFreq note.pitch ∧
      cs'.envPhase = 0 ∧
      cs'.envPos = 0 ∧
      cs'.ornPos = 0 ∧
      cs'.targetVol = (if 0 ≤ note.volume then (note.volume : ℚ) / 64
        else match resolveInstrument p.song.instruments note cs with
             | some i => (i.volume : ℚ) / 64
             | none => cs.targetVol) := by
  have hmain := processRow_at p p' pat cells note cs ch hpat hrow hcells hnote hch hcs h
  obtain ⟨cs0, hrc, htv0⟩ := rowCellNote_noteOn p.song.instruments note cs hpitch
  obtain ⟨f1, f2, f3, f4, f5, f6, f7, f8, f9⟩ :=
    triggerNote_fields cs0 note.pitch (resolveInstrument p.song.instruments note cs)
      note.volume
  obtain ⟨e1, e2, e3, e4, e5, e6, e7, e8⟩ :=
    effectChannel_preserves p.song.ornaments.length note.effect
      (rowCellNote p.song.instruments note cs) hfx
  refine ⟨_, hmain, ?_, ?_, ?_, ?_, ?_, ?_, ?_, ?_⟩
  · rw [e1, hrc, f1]
  · rw [e2, hrc, f2]
  · rw [e4, hrc, f3]
    rfl
  · rw [e3, hrc, f4]
  · rw [e5, hrc, f5]
  · rw [e6, hrc, f6]
  · rcases e8 with e8 | e8
    · rw [e8, hrc, f7]
    · exact e8
  · rw [e7, hrc, f9]
    by_cases hv : 0 ≤ note.volume
    · rw [if_pos hv, if_pos hv]
    · rw [if_neg hv, if_neg hv]
      rcases resolveInstrument p.song.instruments note cs with _ | i
      · exact htv0
      · rfl

/-- C4 counterexample: with a set-volume effect `C64` in the same cell as the
note (instrument default volume 32, no explicit override), the target volume
after `ProcessRow` is `64/64 = 1` — not the claimed instrument default
`32/64`.  The claim as frozen omits the effect dispatch that follows the note
trigger within the same cell. -/
theorem note_trigger_state_counterexample :
    (((playerOfCell cellFxVol).processRow).bind (fun q => q.channels.get? 0)).map
        (fun c => c.targetVol) = some 1 ∧
    ((1 : ℚ) ≠ (32 : ℚ) / 64) := by
  constructor
  · rw [show (playerOfCell cellFxVol).processRow
        = Player.processRowFrom 1 (patOfCell cellFxVol) 0 0 (playerOfCell cellFxVol) from rfl]
    rw [Player.processRowFrom]
    norm_num [playerOfCell, cellFxVol, patOfCell, songWit0, newChannelState, instWit,
      Player.processEffect, fxArpeggio, fxSlideUp, fxSlideDown, fxPortamento, fxVibrato,
      fxVolume, fxSpeed, fxOrnament, fxEcho, fxDuty, genTriangle, genSquare,
      ChannelState.triggerNote, ChannelState.noteOff,
      newOscillator, Oscillator.setFrequency, Oscillator.reset, Oscillator.setDuty,
      Player.processRowFrom]
  · norm_num

/-- Witness for the amended C4: triggering note 57 with instrument 1 (default
volume 32) and no effect on a concrete one-channel player. -/
theorem note_trigger_state_witness :
    ∃ p' cs', (playerOfCell cellPlain).processRow = some p' ∧
      p'.channels.get? 0 = some cs' ∧
      cs'.active = true ∧
      cs'.osc.phase = 0 ∧
      cs'.frequency = 440 * (2 : ℝ) ^ (((57 : ℝ) - 57) / 12) ∧
      cs'.envPhase = 0 ∧
      cs'.ornPos = 0 ∧
      cs'.targetVol = (32 : ℚ) / 64 := by
  have hex : ∃ q, (playerOfCell cellPlain).processRow = some q := by
    rw [show (playerOfCell cellPlain).processRow
        = Player.processRowFrom 1 (patOfCell cellPlain) 0 0 (playerOfCell cellPlain) from rfl]
    rw [Player.processRowFrom]
    norm_num [playerOfCell, cellPlain, patOfCell, songWit0, newChannelState, instWit,
      Player.processEffect, fxArpeggio, fxSlideUp, fxSlideDown, fxPortamento, fxVibrato,
      fxVolume, fxSpeed, fxOrnament, fxEcho, fxDuty, genTriangle, genSquare,
      ChannelState.triggerNote, ChannelState.noteOff,
      newOscillator, Oscillator.setFrequency, Oscillator.reset, Oscillator.setDuty,
      Player.processRowFrom]
  obtain ⟨q, hq⟩ := hex
  obtain ⟨cs', h1, h2, h3, h4, h5, h6, h7, h8, h9⟩ :=
    note_trigger_state (playerOfCell cellPlain) q (patOfCell cellPlain) [cellPlain]
      cellPlain (newChannelState 44100) 0 rfl (by decide) rfl rfl (by decide) rfl
      (by decide) (by decide) hq
  refine ⟨q, cs', hq, h1, h2, h3, ?_, h6, h8, ?_⟩
  · rw [h4]
    norm_num [cellPlain]
  · rw [h9]
    rw [show resolveInstrument (playerOfCell cellPlain).song.instruments cellPlain
        (newChannelState 44100) = some instWit from by decide]
    norm_num [cellPlain, instWit]

lemma cursorOkB_congr (orns : List Ornament) (cs cs' : ChannelState)
    (ha : cs'.active = cs.active) (ho : cs'.ornament = cs.ornament)
    (hp : cs'.ornPos = cs.ornPos) :
    cursorOkB orns cs' = cursorOkB orns cs := by
  unfold cursorOkB
  rw [ha, ho, hp]

lemma cursorOk_of_inactive (orns : List Ornament) (cs : ChannelState)
    (h : cs.active = false) : cursorOkB orns cs = true := by
  simp [cursorOkB, h]

lemma cursorOk_of_ornPos_zero (orns : List Ornament) (cs : ChannelState)
    (h : cs.ornPos = 0) : cursorOkB orns cs = true := by
  unfold cursorOkB
  rcases hg : orns.get? (cs.ornament.toNat - 1) with _ | orn
  · simp
  · rcases hv : orn.values with _ | ⟨a, l⟩
    · simp [hv]
    · simp [hv, h]

lemma cursorOkB_mono (orns : List Ornament) (cs cs' : ChannelState)
    (ha : cs'.active = true → cs.active = true)
    (ho : cs'.ornament = cs.ornament) (hp : cs'.ornPos = cs.ornPos)
    (hok : cursorOkB orns cs = true) : cursorOkB orns cs' = true := by
  cases hact : cs'.active
  · exact cursorOk_of_inactive orns cs' hact
  · have := ha hact
    rw [cursorOkB_congr orns cs cs' (by rw [hact, this]) ho hp]
    exact hok

lemma cursorOkB_dest (orns : List Ornament) (cs : ChannelState)
    (hok : cursorOkB orns cs = true)
    (ha : cs.active = true) (h1 : 0 < cs.ornament)
    (h2 : cs.ornament ≤ (orns.length : ℤ))
    (orn : Ornament) (hg : orns.get? (cs.ornament.toNat - 1) = some orn) :
    orn.values.isEmpty = true ∨ cs.ornPos < orn.values.length := by
  unfold cursorOkB at hok
  rw [ha, hg] at hok
  simp only [Bool.not_true, Bool.false_or, decide_eq_true_eq] at hok
  rcases Bool.or_eq_true_iff.mp hok with hx | hx
  · have hb : cs.ornament ≤ 0 ∨ (orns.length : ℤ) < cs.ornament := by
      simpa using hx
    omega
  · rcases Bool.or_eq_true_iff.mp hx with hy | hy
    · exact Or.inl hy
    · exact Or.inr (by simpa using hy)

lemma processOrnament_spec (orn : Ornament) (cs : ChannelState)
    (hloop : 0 ≤ orn.loop → orn.loop < (orn.values.length : ℤ))
    (hpos : orn.values.isEmpty = true ∨ cs.ornPos < orn.values.length) :
    ∃ cs1, cs.processOrnament (some orn) = some cs1 ∧
      cs1.active = cs.active ∧ cs1.ornament = cs.ornament ∧
      (orn.values.isEmpty = true ∨ cs1.ornPos < orn.values.length) := by
  unfold ChannelState.processOrnament
  dsimp only
  by_cases hemp : orn.values.isEmpty = true
  · rw [if_pos hemp]
    exact ⟨cs, rfl, rfl, rfl, Or.inl hemp⟩
  rw [if_neg hemp]
  have hlen : 0 < orn.values.length := by
    rcases hv : orn.values with _ | ⟨a, l⟩
    · rw [hv] at hemp
      exact absurd rfl hemp
    · simp [hv]
  have hposlt : cs.ornPos < orn.values.length := by
    rcases hpos with hp | hp
    · exact absurd hp hemp
    · exact hp
  rcases Option.eq_none_or_eq_some (orn.values.get? cs.ornPos) with hoff | ⟨off, hoff⟩
  · exact absurd (List.get?_eq_none.mp hoff) (by omega)
  rw [hoff]
  dsimp only
  rw [if_pos (Nat.succ_le_succ (Nat.zero_le _))]
  refine ⟨_, rfl, rfl, rfl, Or.inr ?_⟩
  dsimp only
  by_cases hend : orn.values.length ≤ cs.ornPos + 1
  · rw [if_pos hend]
    by_cases hl : 0 ≤ orn.loop
    · rw [if_pos hl]
      have := hloop hl
      omega
    · rw [if_neg hl]
      omega
  · rw [if_neg hend]
    omega

lemma vibratoStep_voice (cs : ChannelState) :
    (vibratoStep cs).active = cs.active ∧ (vibratoStep cs).ornament = cs.ornament ∧
    (vibratoStep cs).ornPos = cs.ornPos := by
  unfold vibratoStep
  by_cases h : 0 < cs.vibDepth
  · rw [if_pos h]
    exact ⟨rfl, rfl, rfl⟩
  · rw [if_neg h]
    exact ⟨rfl, rfl, rfl⟩

lemma slideStep_voice (cs : ChannelState) :
    (slideStep cs).active = cs.active ∧ (slideStep cs).ornament = cs.ornament ∧
    (slideStep cs).ornPos = cs.ornPos := by
  unfold slideStep
  by_cases h : cs.slideSpeed ≠ 0
  · rw [if_pos h]
    exact ⟨rfl, rfl, rfl⟩
  · rw [if_neg h]
    exact ⟨rfl, rfl, rfl⟩

lemma portamentoStep_voice (cs : ChannelState) :
    (portamentoStep cs).active = cs.active ∧ (portamentoStep cs).ornament = cs.ornament ∧
    (portamentoStep cs).ornPos = cs.ornPos := by
  unfold portamentoStep
  by_cases h : 0 < cs.portaSpeed ∧ 0 < cs.portaTarget
  · rw [if_pos h]
    exact ⟨rfl, rfl, rfl⟩
  · rw [if_neg h]
    exact ⟨rfl, rfl, rfl⟩

lemma processEnvelope_voice (cs : ChannelState) (env : Option Envelope) (ts : ℕ) :
    (cs.processEnvelope env ts).ornament = cs.ornament ∧
    (cs.processEnvelope env ts).ornPos = cs.ornPos ∧
    ((cs.processEnvelope env ts).active = true → cs.active = true) := by
  obtain ⟨act, osc, instr, note, bnote, vol, tvol, freq, eph, epos, orn, opos, otick,
    ptg, psp, vdep, vsp, vpos, ssp, esrc, edel, evm⟩ := cs
  cases env with
  | none => exact ⟨rfl, rfl, fun h => h⟩
  | some env =>
    rcases eph with _ | _ | _ | _ | n <;>
      dsimp only [ChannelState.processEnvelope] <;>
      (try split_ifs) <;>
      refine ⟨rfl, rfl, fun h => ?_⟩ <;>
      first
        | exact h
        | exact Bool.noConfusion h
        | exact h.elim

lemma cursorOkB_build (orns : List Ornament) (cs : ChannelState) (orn : Ornament)
    (hg : orns.get? (cs.ornament.toNat - 1) = some orn)
    (hpos : orn.values.isEmpty = true ∨ cs.ornPos < orn.values.length) :
    cursorOkB orns cs = true := by
  unfold cursorOkB
  rw [hg]
  rcases hpos with h | h <;> simp [h]

lemma envelopeStep_voice (song : Song) (ts : ℕ) (cs : ChannelState) :
    (envelopeStep song ts cs).ornament = cs.ornament ∧
    (envelopeStep song ts cs).ornPos = cs.ornPos ∧
    ((envelopeStep song ts cs).active = true → cs.active = true) := by
  unfold envelopeStep
  exact processEnvelope_voice cs _ ts

lemma tickChannel_spec (song : Song) (ts : ℕ) (cs : ChannelState)
    (hwfOrn : wfOrnamentsB song = true)
    (hok : cursorOkB song.ornaments cs = true) :
    ∃ cs1, tickChannel song ts cs = some cs1 ∧
      cursorOkB song.ornaments cs1 = true := by
  unfold tickChannel
  by_cases hact : cs.active = false
  · rw [if_pos hact]
    exact ⟨cs, rfl, hok⟩
  rw [if_neg hact]
  have hactT : cs.active = true := by
    cases h : cs.active
    · exact absurd h hact
    · rfl
  have hstep : ∃ csA, ornamentStep song cs = some csA ∧
      csA.active = cs.active ∧ csA.ornament = cs.ornament ∧
      cursorOkB song.ornaments csA = true := by
    unfold ornamentStep
    by_cases hcond : 0 < cs.ornament ∧ cs.ornament ≤ (song.ornaments.length : ℤ)
    · rw [if_pos hcond]
      obtain ⟨h1, h2⟩ := hcond
      have hlt : cs.ornament.toNat - 1 < song.ornaments.length := by omega
      rcases Option.eq_none_or_eq_some (song.ornaments.get? (cs.ornament.toNat - 1)) with
        hg | ⟨orn, hg⟩
      · exact absurd (List.get?_eq_none.mp hg) (by omega)
      rw [hg]
      dsimp only
      have hmem := List.get?_mem hg
      have hloop : 0 ≤ orn.loop → orn.loop < (orn.values.length : ℤ) := by
        have h := List.all_eq_true.mp hwfOrn orn hmem
        have h2 : orn.loop < 0 ∨ orn.loop < (orn.values.length : ℤ) := by simpa using h
        intro hge
        omega
      have hpos := cursorOkB_dest song.ornaments cs hok hactT h1 h2 orn hg
      obtain ⟨csA, heq, hAact, hAorn, hApos⟩ := processOrnament_spec orn cs hloop hpos
      refine ⟨csA, heq, hAact, hAorn, ?_⟩
      refine cursorOkB_build song.ornaments csA orn ?_ hApos
      rw [hAorn]
      exact hg
    · rw [if_neg hcond]
      exact ⟨cs, rfl, rfl, rfl, hok⟩
  obtain ⟨csA, hA, hAact, hAorn, hAok⟩ := hstep
  rw [hA]
  dsimp only
  refine ⟨_, rfl, ?_⟩
  obtain ⟨hv1, hv2, hv3⟩ := vibratoStep_voice csA
  obtain ⟨hs1, hs2, hs3⟩ := slideStep_voice (vibratoStep csA)
  obtain ⟨hp1, hp2, hp3⟩ := portamentoStep_voice (slideStep (vibratoStep csA))
  obtain ⟨he1, he2, he3⟩ := envelopeStep_voice song ts (portamentoStep (slideStep (vibratoStep csA)))
  refine cursorOkB_mono song.ornaments csA _ ?_ ?_ ?_ hAok
  · intro h
    have h4 := he3 h
    rw [hp1, hs1, hv1] at h4
    exact h4
  · rw [he1, hp2, hs2, hv2]
  · rw [he2, hp3, hs3, hv3]

lemma tickChannelsFrom_spec (song : Song) (ts : ℕ)
    (hwfOrn : wfOrnamentsB song = true) :
    ∀ fuel ch chans, song.channels - ch ≤ fuel →
      song.channels ≤ chans.length →
      (∀ cs ∈ chans, cursorOkB song.ornaments cs = true) →
      ∃ chans1, tickChannelsFrom song ts ch chans = some chans1 ∧
        chans1.length = chans.length ∧
        (∀ cs ∈ chans1, cursorOkB song.ornaments cs = true) := by
  intro fuel
  induction fuel with
  | zero =>
    intro ch chans hf hlen hok
    rw [tickChannelsFrom]
    rw [dif_neg (by omega)]
    exact ⟨chans, rfl, rfl, hok⟩
  | succ n ih =>
    intro ch chans hf hlen hok
    rw [tickChannelsFrom]
    by_cases hlt : ch < song.channels
    · rw [dif_pos hlt]
      rcases Option.eq_none_or_eq_some (chans.get? ch) with hg | ⟨cs, hg⟩
      · exact absurd (List.get?_eq_none.mp hg) (by omega)
      rw [hg]
      dsimp only
      have hcs_ok := hok cs (List.get?_mem hg)
      obtain ⟨cs1, htc, hok1⟩ := tickChannel_spec song ts cs hwfOrn hcs_ok
      rw [htc]
      dsimp only
      have hok2 : ∀ x ∈ chans.set ch cs1, cursorOkB song.ornaments x = true := by
        intro x hx
        rcases List.mem_or_eq_of_mem_set hx with h | h
        · exact hok x h
        · rw [h]
          exact hok1
      obtain ⟨chans1, h1, h2, h3⟩ :=
        ih (ch + 1) (chans.set ch cs1) (by omega) (by simpa using hlen) hok2
      refine ⟨chans1, h1, ?_, h3⟩
      rw [h2, List.length_set]
    · rw [dif_neg hlt]
      exact ⟨chans, rfl, rfl, hok⟩

lemma processTick_spec (p : Player) (hwfC : wfChannelsB p = true)
    (hwfO : wfOrnamentsB p.song = true) (hwfCur : wfCursorsB p = true) :
    ∃ p1, p.processTick = some p1 ∧
      p1.song = p.song ∧ p1.sampleRate = p.sampleRate ∧ p1.playing = p.playing ∧
      p1.position = p.position ∧ p1.pattern = p.pattern ∧ p1.row = p.row ∧
      p1.tick = p.tick ∧ p1.tickSamples = p.tickSamples ∧
      p1.tickCounter = p.tickCounter ∧
      p1.channels.length = p.channels.length ∧
      wfChannelsB p1 = true ∧ wfCursorsB p1 = true ∧
      p1.echoBuffers = p.echoBuffers ∧ p1.echoPos = p.echoPos := by
  have hlen : p.song.channels ≤ p.channels.length := by
    simpa [wfChannelsB] using hwfC
  have hok : ∀ cs ∈ p.channels, cursorOkB p.song.ornaments cs = true := by
    intro cs hcs
    exact List.all_eq_true.mp hwfCur cs hcs
  obtain ⟨chans1, h1, h2, h3⟩ :=
    tickChannelsFrom_spec p.song p.tickSamples hwfO p.song.channels 0 p.channels
      (by omega) hlen hok
  refine ⟨{ p with channels := chans1 }, ?_, rfl, rfl, rfl, rfl, rfl, rfl, rfl, rfl, rfl,
    ?_, ?_, ?_, rfl, rfl⟩
  · unfold Player.processTick
    rw [h1]
    rfl
  · rw [h2]
  · simp only [wfChannelsB]
    rw [h2]
    simpa [wfChannelsB] using hwfC
  · simp only [wfCursorsB]
    exact List.all_eq_true.mpr h3

lemma effectChannel_cursorOk (orns : List Ornament) (ornLen : ℕ) (fx : Effect)
    (cs : ChannelState) (hok : cursorOkB orns cs = true) :
    cursorOkB orns (effectChannel ornLen fx cs) = true := by
  unfold effectChannel
  by_cases h0 : fx.type = 0 ∧ fx.param = 0
  · rw [if_pos h0]
    exact hok
  rw [if_neg h0]
  by_cases h1 : fx.type = fxArpeggio
  · rw [if_pos h1]
    by_cases h1b : fx.param ≠ 0
    · rw [if_pos h1b]
      exact cursorOkB_mono orns cs _ (fun h => h) rfl rfl hok
    · rw [if_neg h1b]
      exact hok
  rw [if_neg h1]
  by_cases h2 : fx.type = fxSlideUp
  · rw [if_pos h2]
    exact cursorOkB_mono orns cs _ (fun h => h) rfl rfl hok
  rw [if_neg h2]
  by_cases h3 : fx.type = fxSlideDown
  · rw [if_pos h3]
    exact cursorOkB_mono orns cs _ (fun h => h) rfl rfl hok
  rw [if_neg h3]
  by_cases h4 : fx.type = fxPortamento
  · rw [if_pos h4]
    exact cursorOkB_mono orns cs _ (fun h => h) rfl rfl hok
  rw [if_neg h4]
  by_cases h5 : fx.type = fxVibrato
  · rw [if_pos h5]
    exact cursorOkB_mono orns cs _ (fun h => h) rfl rfl hok
  rw [if_neg h5]
  by_cases h6 : fx.type = fxVolume
  · rw [if_pos h6]
    by_cases h6b : fx.param ≤ 64
    · rw [if_pos h6b]
      exact cursorOkB_mono orns cs _ (fun h => h) rfl rfl hok
    · rw [if_neg h6b]
      exact hok
  rw [if_neg h6]
  by_cases h7 : fx.type = fxSpeed
  · rw [if_pos h7]
    exact hok
  rw [if_neg h7]
  by_cases h8 : fx.type = fxOrnament
  · rw [if_pos h8]
    by_cases h8b : fx.param < ornLen
    · rw [if_pos h8b]
      exact cursorOk_of_ornPos_zero orns _ rfl
    · rw [if_neg h8b]
      exact hok
  rw [if_neg h8]
  by_cases h9 : fx.type = fxEcho
  · rw [if_pos h9]
    exact cursorOkB_mono orns cs _ (fun h => h) rfl rfl hok
  rw [if_neg h9]
  by_cases h10 : fx.type = fxDuty
  · rw [if_pos h10]
    exact cursorOkB_mono orns cs _ (fun h => h) rfl rfl hok
  rw [if_neg h10]
  exact hok

lemma processEffect_total (p : Player) (ch : ℕ) (fx : Effect)
    (cs : ChannelState) (hcs : p.channels.get? ch = some cs) :
    ∃ p2, p.processEffect ch fx = some p2 := by
  unfold Player.processEffect
  by_cases h0 : fx.type = 0 ∧ fx.param = 0
  · rw [if_pos h0]
    exact ⟨p, rfl⟩
  rw [if_neg h0, hcs]
  dsimp only
  by_cases h1 : fx.type = fxArpeggio
  · rw [if_pos h1]
    by_cases h1b : fx.param ≠ 0
    · rw [if_pos h1b]
      exact ⟨_, rfl⟩
    · rw [if_neg h1b]
      exact ⟨p, rfl⟩
  rw [if_neg h1]
  by_cases h2 : fx.type = fxSlideUp
  · rw [if_pos h2]
    exact ⟨_, rfl⟩
  rw [if_neg h2]
  by_cases h3 : fx.type = fxSlideDown
  · rw [if_pos h3]
    exact ⟨_, rfl⟩
  rw [if_neg h3]
  by_cases h4 : fx.type = fxPortamento
  · rw [if_pos h4]
    exact ⟨_, rfl⟩
  rw [if_neg h4]
  by_cases h5 : fx.type = fxVibrato
  · rw [if_pos h5]
    exact ⟨_, rfl⟩
  rw [if_neg h5]
  by_cases h6 : fx.type = fxVolume
  · rw [if_pos h6]
    by_cases h6b : fx.param ≤ 64
    · rw [if_pos h6b]
      exact ⟨_, rfl⟩
    · rw [if_neg h6b]
      exact ⟨p, rfl⟩
  rw [if_neg h6]
  by_cases h7 : fx.type = fxSpeed
  · rw [if_pos h7]
    by_cases h7b : fx.param < 32
    · rw [if_pos h7b]
      exact ⟨_, rfl⟩
    · rw [if_neg h7b]
      exact ⟨_, rfl⟩
  rw [if_neg h7]
  by_cases h8 : fx.type = fxOrnament
  · rw [if_pos h8]
    by_cases h8b : fx.param < p.song.ornaments.length
    · rw [if_pos h8b]
      exact ⟨_, rfl⟩
    · rw [if_neg h8b]
      exact ⟨p, rfl⟩
  rw [if_neg h8]
  by_cases h9 : fx.type = fxEcho
  · rw [if_pos h9]
    exact ⟨_, rfl⟩
  rw [if_neg h9]
  by_cases h10 : fx.type = fxDuty
  · rw [if_pos h10]
    exact ⟨_, rfl⟩
  rw [if_neg h10]
  exact ⟨p, rfl⟩

lemma processRowFrom_total (nCh : ℕ) (pat : Pattern) (row : ℕ) (orns : List Ornament)
    (hrow : row < pat.notes.length) :
    ∀ k i p, nCh - i ≤ k → p.song.ornaments = orns → nCh ≤ p.channels.length →
      (∀ cs ∈ p.channels, cursorOkB orns cs = true) →
      ∃ p', Player.processRowFrom nCh pat row i p = some p' ∧
        (∀ cs ∈ p'.channels, cursorOkB orns cs = true) := by
  intro k
  induction k with
  | zero =>
    intro i p hk hporns hlen hok
    rw [Player.processRowFrom, dif_neg (by omega)]
    exact ⟨p, rfl, hok⟩
  | succ k ih =>
    intro i p hk hporns hlen hok
    by_cases hi : i < nCh
    swap
    · rw [Player.processRowFrom, dif_neg hi]
      exact ⟨p, rfl, hok⟩
    rw [Player.processRowFrom, dif_pos hi]
    rcases Option.eq_none_or_eq_some (pat.notes.get? row) with hcells | ⟨cells, hcells⟩
    · exact absurd (List.get?_eq_none.mp hcells) (by omega)
    rw [hcells]
    dsimp only
    by_cases hic : i < cells.length
    swap
    · rw [if_neg hic]
      exact ⟨p, rfl, hok⟩
    rw [if_pos hic]
    rcases Option.eq_none_or_eq_some (cells.get? i) with hni | ⟨note, hni⟩
    · exact absurd (List.get?_eq_none.mp hni) (by omega)
    rcases Option.eq_none_or_eq_some (p.channels.get? i) with hcsi | ⟨csi, hcsi⟩
    · exact absurd (List.get?_eq_none.mp hcsi) (by omega)
    rw [hni, hcsi]
    dsimp only
    have hlt : i < p.channels.length := by omega
    generalize hp1 : (if note.pitch = -2 then
        { p with channels := p.channels.set i csi.noteOff }
      else if 0 ≤ note.pitch then
        let instNum : ℤ := (note.instrument : ℤ) - 1
        let resolved : Option Instrument × ChannelState :=
          if 0 ≤ instNum ∧ instNum < (p.song.instruments.length : ℤ) then
            (p.song.instruments.get? instNum.toNat, { csi with instrument := instNum })
          else if 0 ≤ csi.instrument ∧ csi.instrument < (p.song.instruments.length : ℤ) then
            (p.song.instruments.get? csi.instrument.toNat, csi)
          else (none, csi)
        let cs1 := resolved.2.triggerNote note.pitch resolved.1 note.volume
        { p with channels := p.channels.set i cs1 }
      else p) = p1
    have hp1song : p1.song = p.song := by
      rw [← hp1]
      split_ifs <;> rfl
    have hp1len : p1.channels.length = p.channels.length := by
      rw [← hp1]
      split_ifs <;> first | exact List.length_set _ _ _ | rfl
    have hp1ok : ∀ x ∈ p1.channels, cursorOkB orns x = true := by
      rw [← hp1]
      by_cases hpm : note.pitch = -2
      · rw [if_pos hpm]
        intro x hx
        rcases List.mem_or_eq_of_mem_set hx with h | h
        · exact hok x h
        · rw [h]
          exact cursorOkB_mono orns csi _ (fun h => h) rfl rfl
            (hok csi (List.get?_mem hcsi))
      rw [if_neg hpm]
      by_cases hp0 : 0 ≤ note.pitch
      · rw [if_pos hp0]
        intro x hx
        dsimp only at hx
        rcases List.mem_or_eq_of_mem_set hx with h | h
        · exact hok x h
        · rw [h]
          exact cursorOk_of_ornPos_zero orns _
            (triggerNote_fields _ note.pitch _ note.volume).2.2.2.2.2.2.1
      · rw [if_neg hp0]
        exact hok
    have hp1at : ∃ csx, p1.channels.get? i = some csx := by
      rw [← hp1]
      by_cases hpm : note.pitch = -2
      · rw [if_pos hpm]
        exact ⟨_, List.get?_set_eq_of_lt _ hlt⟩
      rw [if_neg hpm]
      by_cases hp0 : 0 ≤ note.pitch
      · rw [if_pos hp0]
        dsimp only
        exact ⟨_, List.get?_set_eq_of_lt _ hlt⟩
      · rw [if_neg hp0]
        exact ⟨csi, hcsi⟩
    obtain ⟨csx, hcsx⟩ := hp1at
    obtain ⟨p2, heff⟩ := processEffect_total p1 i note.effect csx hcsx
    rw [heff]
    obtain ⟨e1, e2, e3, e4, e5, e6, e7, e8, e9, e10, e11, e12, e13, e14, e15, e16, e17, e18⟩ :=
      processEffect_spec p1 p2 i note.effect csx hcsx heff
    have hp2ok : ∀ x ∈ p2.channels, cursorOkB orns x = true := by
      intro x hx
      obtain ⟨j, hj⟩ := List.mem_iff_get?.mp hx
      by_cases hji : j = i
      · subst hji
        have hx' : x = effectChannel p1.song.ornaments.length note.effect csx := by
          rw [e1] at hj
          exact (Option.some.inj hj).symm
        rw [hx']
        exact effectChannel_cursorOk orns _ note.effect csx (hp1ok csx (List.get?_mem hcsx))
      · rw [processEffect_channels_ne p1 p2 i j note.effect hji heff] at hj
        exact hp1ok x (List.get?_mem hj)
    have hp2len : nCh ≤ p2.channels.length := by
      rw [e15, hp1len]
      exact hlen
    have hp2orns : p2.song.ornaments = orns := by
      rw [e3, hp1song]
      exact hporns
    exact ih (i + 1) p2 (by omega) hp2orns hp2len hp2ok

lemma processRow_total_spec (p : Player) (pat : Pattern)
    (hpat : p.song.patterns.get? p.pattern = some pat)
    (hrow : p.row < pat.rows)
    (hwfP : wfPatternsB p.song = true)
    (hwfC : wfChannelsB p = true)
    (hwfCur : wfCursorsB p = true) :
    ∃ p', p.processRow = some p' ∧
      p'.song.instruments = p.song.instruments ∧
      p'.song.ornaments = p.song.ornaments ∧
      p'.song.patterns = p.song.patterns ∧
      p'.song.order = p.song.order ∧
      p'.song.channels = p.song.channels ∧
      p'.song.chanConfig = p.song.chanConfig ∧
      p'.playing = p.playing ∧
      p'.position = p.position ∧
      p'.pattern = p.pattern ∧
      p'.row = p.row ∧
      p'.tick = p.tick ∧
      p'.tickCounter = p.tickCounter ∧
      p'.sampleRate = p.sampleRate ∧
      p'.channels.length = p.channels.length ∧
      p'.echoBuffers = p.echoBuffers ∧
      p'.echoPos = p.echoPos ∧
      wfChannelsB p' = true ∧
      wfCursorsB p' = true ∧
      ((∀ cells note, pat.notes.get? p.row = some cells → note ∈ cells →
          note.effect.type ≠ fxSpeed) →
        p'.song.speed = p.song.speed ∧ p'.song.tempo = p.song.tempo ∧
        p'.tickSamples = p.tickSamples) := by
  have hplt : p.pattern < p.song.patterns.length := (List.get?_eq_some.mp hpat).1
  have hrow' : p.row < pat.notes.length := by
    have hmem := List.get?_mem hpat
    have h := List.all_eq_true.mp hwfP pat hmem
    have h2 : pat.rows ≤ pat.notes.length := by simpa using h
    omega
  have hlen : p.song.channels ≤ p.channels.length := by
    simpa [wfChannelsB] using hwfC
  have hok : ∀ cs ∈ p.channels, cursorOkB p.song.ornaments cs = true := by
    intro cs hcs
    exact List.all_eq_true.mp hwfCur cs hcs
  obtain ⟨p', hpr, hok'⟩ :=
    processRowFrom_total p.song.channels pat p.row p.song.ornaments hrow'
      p.song.channels 0 p (by omega) rfl hlen hok
  obtain ⟨s1, s2, s3, s4, s5, s6, s7, s8, s9, s10, s11, s12, s13, s14, s15, s16, s17, s18⟩ :=
    processRowFrom_spec p.song.channels pat p.row p.song.channels 0 p p' (by omega) hpr
  refine ⟨p', ?_, s1, s2, s3, s4, s5, s6, s7, s8, s9, s10, s11, s12, s13, s14, s15, s16,
    ?_, ?_, s18⟩
  · unfold Player.processRow
    rw [if_neg (by omega), hpat]
    dsimp only
    rw [if_neg (by omega)]
    exact hpr
  · simp only [wfChannelsB, s5, s14]
    simpa [wfChannelsB] using hwfC
  · simp only [wfCursorsB, s2]
    exact List.all_eq_true.mpr hok'

lemma stepAdvance_quiet (p : Player) (hplay : p.playing = true)
    (h : p.tickCounter + 1 < p.tickSamples) :
    p.stepAdvance = some { p with tickCounter := p.tickCounter + 1 } ∧
    p.processesRowB = false := by
  constructor
  · unfold Player.stepAdvance
    rw [if_neg (by rw [hplay]; exact fun hc => Bool.noConfusion hc)]
    dsimp only
    rw [if_pos h]
  · unfold Player.processesRowB
    have : decide (p.tickSamples ≤ p.tickCounter + 1) = false := by
      rw [decide_eq_false_iff_not]
      omega
    rw [this]
    simp

lemma stepAdvanceN_add (m n : ℕ) : ∀ p : Player,
    Player.stepAdvanceN (m + n) p =
      match Player.stepAdvanceN m p with
      | none => none
      | some q => Player.stepAdvanceN n q := by
  induction m with
  | zero =>
    intro p
    rw [Nat.zero_add]
    rfl
  | succ m ih =>
    intro p
    have h1 : m + 1 + n = (m + n) + 1 := by omega
    rw [h1]
    show (match p.stepAdvance with
          | none => none
          | some p1 => Player.stepAdvanceN (m + n) p1) =
      (match (match p.stepAdvance with
          | none => none
          | some p1 => Player.stepAdvanceN m p1) with
        | none => none
        | some q => Player.stepAdvanceN n q)
    rcases Option.eq_none_or_eq_some p.stepAdvance with hs | ⟨p1, hs⟩ <;> rw [hs]
    dsimp only
    exact ih p1

lemma traceRows_some_of_steps (m : ℕ) : ∀ p q : Player,
    Player.stepAdvanceN m p = some q → ∃ l, Player.traceRows m p = some l := by
  induction m with
  | zero =>
    intro p q h
    exact ⟨[], rfl⟩
  | succ m ih =>
    intro p q h
    rw [Player.stepAdvanceN] at h
    rw [Player.traceRows]
    rcases Option.eq_none_or_eq_some p.stepAdvance with hs | ⟨p1, hs⟩
    · rw [hs] at h
      exact Option.noConfusion h
    rw [hs] at h ⊢
    dsimp only at h ⊢
    obtain ⟨l, hl⟩ := ih p1 q h
    rw [hl]
    exact ⟨_, rfl⟩

lemma traceRows_append (m n : ℕ) : ∀ (p q : Player) (l1 l2 : List (ℕ × ℕ)),
    Player.stepAdvanceN m p = some q →
    Player.traceRows m p = some l1 → Player.traceRows n q = some l2 →
    Player.traceRows (m + n) p = some (l1 ++ l2) := by
  induction m with
  | zero =>
    intro p q l1 l2 hs h1 h2
    cases (Option.some.inj hs)
    cases (Option.some.inj h1)
    rw [Nat.zero_add]
    simpa using h2
  | succ m ih =>
    intro p q l1 l2 hs h1 h2
    have hm : m + 1 + n = (m + n) + 1 := by omega
    rw [hm, Player.traceRows]
    rw [Player.stepAdvanceN] at hs
    rw [Player.traceRows] at h1
    rcases Option.eq_none_or_eq_some p.stepAdvance with hp | ⟨p1, hp⟩
    · rw [hp] at hs
      exact Option.noConfusion hs
    rw [hp] at hs h1 ⊢
    dsimp only at hs h1 ⊢
    rcases Option.eq_none_or_eq_some (Player.traceRows m p1) with ht | ⟨rest, ht⟩
    · rw [ht] at h1
      exact Option.noConfusion h1
    rw [ht] at h1
    dsimp only at h1
    rw [ih p1 q rest l2 hs ht h2]
    dsimp only
    cases (Option.some.inj h1)
    by_cases hb : p.processesRowB = true
    · simp [hb]
    · simp [Bool.eq_false_iff.mpr hb]

lemma stepAdvanceN_quiet (k : ℕ) : ∀ p : Player, p.playing = true →
    p.tickCounter + k < p.tickSamples →
    Player.stepAdvanceN k p = some { p with tickCounter := p.tickCounter + k } ∧
    Player.traceRows k p = some [] := by
  induction k with
  | zero =>
    intro p hplay h
    exact ⟨rfl, rfl⟩
  | succ k ih =>
    intro p hplay h
    obtain ⟨hs, hb⟩ := stepAdvance_quiet p hplay (by omega)
    obtain ⟨ih1, ih2⟩ := ih { p with tickCounter := p.tickCounter + 1 } hplay
      (by dsimp only; omega)
    have hgoal : p.tickCounter + (k + 1) = p.tickCounter + 1 + k := by omega
    constructor
    · rw [Player.stepAdvanceN, hs]
      dsimp only
      rw [ih1, hgoal]
    · rw [Player.traceRows, hs]
      dsimp only
      rw [ih2]
      dsimp only
      rw [hb]
      rfl

lemma quiet_to_boundary (p : Player) (hplay : p.playing = true)
    (htc : p.tickCounter = 0) :
    ∃ m, Player.stepAdvanceN m p = some { p with tickCounter := m } ∧
      Player.traceRows m p = some [] ∧
      p.tickSamples ≤ m + 1 ∧ m + 1 = max p.tickSamples 1 := by
  by_cases hts : p.tickSamples = 0
  · refine ⟨0, ?_, rfl, by omega, by omega⟩
    show some p = some { p with tickCounter := 0 }
    rw [← htc]
  · obtain ⟨h1, h2⟩ := stepAdvanceN_quiet (p.tickSamples - 1) p hplay (by omega)
    have he : p.tickCounter + (p.tickSamples - 1) = p.tickSamples - 1 := by omega
    rw [he] at h1
    exact ⟨p.tickSamples - 1, h1, h2, by omega, by omega⟩

lemma stepAdvance_boundary_mid (p : Player) (pat : Pattern)
    (hplay : p.playing = true) (hb : p.tickSamples ≤ p.tickCounter + 1)
    (htick : p.tick ≠ 0)
    (hpat : p.song.patterns.get? p.pattern = some pat)
    (horder : pat.rows ≤ p.row + 1 → p.song.order ≠ [])
    (hwfC : wfChannelsB p = true) (hwfO : wfOrnamentsB p.song = true)
    (hwfCur : wfCursorsB p = true) :
    ∃ q, p.stepAdvance = some q ∧ p.processesRowB = false ∧
      q.song = p.song ∧ q.playing = true ∧ q.tickCounter = 0 ∧
      q.tickSamples = p.tickSamples ∧ q.sampleRate = p.sampleRate ∧
      q.channels.length = p.channels.length ∧
      wfChannelsB q = true ∧ wfCursorsB q = true ∧
      (p.tick + 1 < p.song.speed →
        q.tick = p.tick + 1 ∧ q.row = p.row ∧ q.position = p.position ∧
        q.pattern = p.pattern) ∧
      (p.song.speed ≤ p.tick + 1 →
        q.tick = 0 ∧
        (p.row + 1 < pat.rows → q.row = p.row + 1 ∧ q.position = p.position ∧
          q.pattern = p.pattern) ∧
        (pat.rows ≤ p.row + 1 →
          q.row = 0 ∧
          q.position = (if p.song.order.length ≤ p.position + 1 then 0
            else p.position + 1) ∧
          ∃ patIdx, p.song.order.get? q.position = some patIdx ∧
            q.pattern = patIdx)) := by
  have hprB : p.processesRowB = false := by
    have : decide (p.tick = 0) = false := by
      rw [decide_eq_false_iff_not]
      exact htick
    rw [Player.processesRowB, this]
    simp
  obtain ⟨p1, hpt, t_song, t_rate, t_play, t_pos, t_pat, t_row, t_tick, t_ts, t_tc,
      t_len, t_wfC, t_wfCur, t_eb, t_ep⟩ :=
    processTick_spec { p with tickCounter := 0 } hwfC hwfO hwfCur
  have hsong1 : p1.song = p.song := t_song
  have hplay1 : p1.playing = true := by
    rw [(t_play : p1.playing = p.playing)]
    exact hplay
  have hpos1 : p1.position = p.position := t_pos
  have hpatt1 : p1.pattern = p.pattern := t_pat
  have hrow1 : p1.row = p.row := t_row
  have htick1 : p1.tick = p.tick := t_tick
  have hts1 : p1.tickSamples = p.tickSamples := t_ts
  have htc1 : p1.tickCounter = 0 := t_tc
  have hlen1 : p1.channels.length = p.channels.length := t_len
  have hwfC1 : wfChannelsB p1 = true := t_wfC
  have hwfCur1 : wfCursorsB p1 = true := t_wfCur
  have hrate1 : p1.sampleRate = p.sampleRate := t_rate
  have hstep : p.stepAdvance =
      (let pc : Player := { p1 with tick := p1.tick + 1 }
        if pc.tick < pc.song.speed then some pc
        else
          let pd : Player := { pc with tick := 0, row := pc.row + 1 }
          if pd.pattern < pd.song.patterns.length then
            match pd.song.patterns.get? pd.pattern with
            | none => none
            | some pat =>
              if pd.row < pat.rows then some pd
              else
                let pe : Player := { pd with row := 0, position := pd.position + 1 }
                let pf : Player := if pe.song.order.length ≤ pe.position then
                    { pe with position := 0 } else pe
                match pf.song.order.get? pf.position with
                | none => none
                | some patIdx => some { pf with pattern := patIdx }
          else some pd) := by
    unfold Player.stepAdvance
    rw [if_neg (by rw [hplay]; exact fun hc => Bool.noConfusion hc)]
    dsimp only
    rw [if_neg (by omega)]
    rw [if_neg htick]
    dsimp only
    rw [hpt]
  rw [hstep]
  dsimp only
  by_cases hsp : p1.tick + 1 < p1.song.speed
  · rw [if_pos hsp]
    refine ⟨_, rfl, hprB, hsong1, hplay1, htc1, hts1, hrate1, hlen1, hwfC1, hwfCur1,
      ?_, ?_⟩
    · intro _
      exact ⟨by rw [htick1], hrow1, hpos1, hpatt1⟩
    · intro h
      rw [htick1, hsong1] at hsp
      omega
  · rw [if_neg hsp]
    have hplen : p1.pattern < p1.song.patterns.length := by
      rw [hpatt1, hsong1]
      exact (List.get?_eq_some.mp hpat).1
    rw [if_pos hplen]
    have hpat1 : p1.song.patterns.get? p1.pattern = some pat := by
      rw [hsong1, hpatt1]
      exact hpat
    rw [hpat1]
    dsimp only
    by_cases hadv : p1.row + 1 < pat.rows
    · rw [if_pos hadv]
      refine ⟨_, rfl, hprB, hsong1, hplay1, htc1, hts1, hrate1, hlen1, hwfC1, hwfCur1,
        ?_, ?_⟩
      · intro h
        rw [htick1, hsong1] at hsp
        omega
      · intro _
        refine ⟨rfl, ?_, ?_⟩
        · intro _
          exact ⟨by rw [hrow1], hpos1, hpatt1⟩
        · intro h
          rw [hrow1] at hadv
          omega
    · rw [if_neg hadv]
      have h0 : 0 < p.song.order.length :=
        List.length_pos.mpr (horder (by rw [hrow1] at hadv; omega))
      by_cases hw : p1.song.order.length ≤ p1.position + 1
      · rw [if_pos hw]
        rcases Option.eq_none_or_eq_some (p1.song.order.get? 0) with hg | ⟨patIdx, hg⟩
        · rw [List.get?_eq_none] at hg
          rw [hsong1] at hg
          omega
        rw [hg]
        dsimp only
        refine ⟨_, rfl, hprB, hsong1, hplay1, htc1, hts1, hrate1, hlen1, hwfC1, hwfCur1,
          ?_, ?_⟩
        · intro h
          rw [htick1, hsong1] at hsp
          omega
        · intro _
          refine ⟨rfl, ?_, ?_⟩
          · intro h
            rw [hrow1] at hadv
            omega
          · intro _
            refine ⟨rfl, ?_, patIdx, ?_, rfl⟩
            · rw [if_pos (by rw [hsong1, hpos1] at hw; exact hw)]
            · rw [hsong1] at hg
              exact hg
      · rw [if_neg hw]
        rcases Option.eq_none_or_eq_some (p1.song.order.get? (p1.position + 1)) with
          hg | ⟨patIdx, hg⟩
        · rw [List.get?_eq_none] at hg
          omega
        rw [hg]
        dsimp only
        refine ⟨_, rfl, hprB, hsong1, hplay1, htc1, hts1, hrate1, hlen1, hwfC1, hwfCur1,
          ?_, ?_⟩
        · intro h
          rw [htick1, hsong1] at hsp
          omega
        · intro _
          refine ⟨rfl, ?_, ?_⟩
          · intro h
            rw [hrow1] at hadv
            omega
          · intro _
            refine ⟨rfl, ?_, patIdx, ?_, rfl⟩
            · rw [if_neg (by rw [hsong1, hpos1] at hw; exact hw), hpos1]
            · rw [hsong1] at hg
              exact hg

lemma stepAdvance_boundary_row (p : Player) (pat : Pattern)
    (hplay : p.playing = true) (hb : p.tickSamples ≤ p.tickCounter + 1)
    (htick : p.tick = 0)
    (hpat : p.song.patterns.get? p.pattern = some pat)
    (hrow : p.row < pat.rows)
    (horder : pat.rows ≤ p.row + 1 → p.song.order ≠ [])
    (hwfP : wfPatternsB p.song = true)
    (hwfC : wfChannelsB p = true) (hwfO : wfOrnamentsB p.song = true)
    (hwfCur : wfCursorsB p = true) :
    ∃ pR q, Player.processRow { p with tickCounter := 0 } = some pR ∧
      p.stepAdvance = some q ∧
      p.processesRowB = true ∧
      pR.song.patterns = p.song.patterns ∧ pR.song.order = p.song.order ∧
      pR.song.ornaments = p.song.ornaments ∧
      pR.song.instruments = p.song.instruments ∧
      pR.song.chanConfig = p.song.chanConfig ∧
      pR.song.channels = p.song.channels ∧
      q.song = pR.song ∧ q.playing = true ∧ q.tickCounter = 0 ∧
      q.tickSamples = pR.tickSamples ∧ q.sampleRate = p.sampleRate ∧
      q.channels.length = p.channels.length ∧
      wfChannelsB q = true ∧ wfCursorsB q = true ∧
      (1 < pR.song.speed →
        q.tick = 1 ∧ q.row = p.row ∧ q.position = p.position ∧
        q.pattern = p.pattern) ∧
      (pR.song.speed ≤ 1 →
        q.tick = 0 ∧
        (p.row + 1 < pat.rows → q.row = p.row + 1 ∧ q.position = p.position ∧
          q.pattern = p.pattern) ∧
        (pat.rows ≤ p.row + 1 →
          q.row = 0 ∧
          q.position = (if p.song.order.length ≤ p.position + 1 then 0
            else p.position + 1) ∧
          ∃ patIdx, p.song.order.get? q.position = some patIdx ∧
            q.pattern = patIdx)) ∧
      ((∀ cells note, pat.notes.get? p.row = some cells → note ∈ cells →
          note.effect.type ≠ fxSpeed) →
        pR.song.speed = p.song.speed ∧ pR.song.tempo = p.song.tempo ∧
        pR.tickSamples = p.tickSamples) := by
  have hprB : p.processesRowB = true := by
    rw [Player.processesRowB, hplay]
    have h1 : decide (p.tickSamples ≤ p.tickCounter + 1) = true := decide_eq_true hb
    have h2 : decide (p.tick = 0) = true := decide_eq_true htick
    rw [h1, h2]
    rfl
  obtain ⟨pR, hprow, r1, r2, r3, r4, r5, r6, r7, r8, r9, r10, r11, r12, r13, r14, r15,
      r16, rwfC, rwfCur, r18⟩ :=
    processRow_total_spec { p with tickCounter := 0 } pat hpat hrow hwfP hwfC hwfCur
  have hwfOR : wfOrnamentsB pR.song = true := by
    have he : wfOrnamentsB pR.song = wfOrnamentsB p.song := by
      unfold wfOrnamentsB
      rw [(r2 : pR.song.ornaments = p.song.ornaments)]
    rw [he]
    exact hwfO
  obtain ⟨p1, hpt, t_song, t_rate, t_play, t_pos, t_pat, t_row, t_tick, t_ts, t_tc,
      t_len, t_wfC, t_wfCur, t_eb, t_ep⟩ :=
    processTick_spec pR rwfC hwfOR rwfCur
  have hplayR : pR.playing = true := by
    rw [(r7 : pR.playing = p.playing)]
    exact hplay
  have htickR : pR.tick = 0 := by
    rw [(r11 : pR.tick = p.tick)]
    exact htick
  have htcR : pR.tickCounter = 0 := r12
  have hsongpats1 : p1.song.patterns = p.song.patterns := by
    rw [t_song, r3]
  have horder1 : p1.song.order = p.song.order := by
    rw [t_song, r4]
  have hplay1 : p1.playing = true := by
    rw [t_play]
    exact hplayR
  have hpos1 : p1.position = p.position := by
    rw [t_pos, (r8 : pR.position = p.position)]
  have hpatt1 : p1.pattern = p.pattern := by
    rw [t_pat, (r9 : pR.pattern = p.pattern)]
  have hrow1 : p1.row = p.row := by
    rw [t_row, (r10 : pR.row = p.row)]
  have htick1 : p1.tick = 0 := by
    rw [t_tick]
    exact htickR
  have hts1 : p1.tickSamples = pR.tickSamples := t_ts
  have htc1 : p1.tickCounter = 0 := by
    rw [t_tc]
    exact htcR
  have hlen1 : p1.channels.length = p.channels.length := by
    rw [t_len, (r14 : pR.channels.length = p.channels.length)]
  have hrate1 : p1.sampleRate = p.sampleRate := by
    rw [t_rate, (r13 : pR.sampleRate = p.sampleRate)]
  have hspeed1 : p1.song.speed = pR.song.speed := by
    rw [t_song]
  have hstep : p.stepAdvance =
      (let pc : Player := { p1 with tick := p1.tick + 1 }
        if pc.tick < pc.song.speed then some pc
        else
          let pd : Player := { pc with tick := 0, row := pc.row + 1 }
          if pd.pattern < pd.song.patterns.length then
            match pd.song.patterns.get? pd.pattern with
            | none => none
            | some pat =>
              if pd.row < pat.rows then some pd
              else
                let pe : Player := { pd with row := 0, position := pd.position + 1 }
                let pf : Player := if pe.song.order.length ≤ pe.position then
                    { pe with position := 0 } else pe
                match pf.song.order.get? pf.position with
                | none => none
                | some patIdx => some { pf with pattern := patIdx }
          else some pd) := by
    unfold Player.stepAdvance
    rw [if_neg (by rw [hplay]; exact fun hc => Bool.noConfusion hc)]
    dsimp only
    rw [if_neg (by omega)]
    rw [if_pos htick]
    rw [hprow]
    dsimp only
    rw [hpt]
  rw [hstep]
  dsimp only
  by_cases hsp : p1.tick + 1 < p1.song.speed
  · rw [if_pos hsp]
    refine ⟨pR, _, hprow, rfl, hprB, r3, r4, r2, r1, r6, r5, t_song, hplay1, htc1,
      hts1, hrate1, hlen1, t_wfC, t_wfCur, ?_, ?_, r18⟩
    · intro _
      refine ⟨?_, hrow1, hpos1, hpatt1⟩
      rw [htick1]
    · intro h
      rw [htick1, hspeed1] at hsp
      omega
  · rw [if_neg hsp]
    have hplen : p1.pattern < p1.song.patterns.length := by
      rw [hpatt1, hsongpats1]
      exact (List.get?_eq_some.mp hpat).1
    rw [if_pos hplen]
    have hpat1 : p1.song.patterns.get? p1.pattern = some pat := by
      rw [hsongpats1, hpatt1]
      exact hpat
    rw [hpat1]
    dsimp only
    have hspR : pR.song.speed ≤ 1 := by
      rw [htick1, hspeed1] at hsp
      omega
    by_cases hadv : p1.row + 1 < pat.rows
    · rw [if_pos hadv]
      refine ⟨pR, _, hprow, rfl, hprB, r3, r4, r2, r1, r6, r5, t_song, hplay1, htc1,
        hts1, hrate1, hlen1, t_wfC, t_wfCur, ?_, ?_, r18⟩
      · intro h
        omega
      · intro _
        refine ⟨rfl, ?_, ?_⟩
        · intro _
          exact ⟨by rw [hrow1], hpos1, hpatt1⟩
        · intro h
          rw [hrow1] at hadv
          omega
    · rw [if_neg hadv]
      have h0 : 0 < p.song.order.length :=
        List.length_pos.mpr (horder (by rw [hrow1] at hadv; omega))
      by_cases hw : p1.song.order.length ≤ p1.position + 1
      · rw [if_pos hw]
        rcases Option.eq_none_or_eq_some (p1.song.order.get? 0) with hg | ⟨patIdx, hg⟩
        · rw [List.get?_eq_none] at hg
          rw [horder1] at hg
          omega
        rw [hg]
        dsimp only
        refine ⟨pR, _, hprow, rfl, hprB, r3, r4, r2, r1, r6, r5, t_song, hplay1, htc1,
          hts1, hrate1, hlen1, t_wfC, t_wfCur, ?_, ?_, r18⟩
        · intro h
          omega
        · intro _
          refine ⟨rfl, ?_, ?_⟩
          · intro h
            rw [hrow1] at hadv
            omega
          · intro _
            refine ⟨rfl, ?_, patIdx, ?_, rfl⟩
            · rw [if_pos (by rw [horder1, hpos1] at hw; exact hw)]
            · rw [horder1] at hg
              exact hg
      · rw [if_neg hw]
        rcases Option.eq_none_or_eq_some (p1.song.order.get? (p1.position + 1)) with
          hg | ⟨patIdx, hg⟩
        · rw [List.get?_eq_none] at hg
          omega
        rw [hg]
        dsimp only
        refine ⟨pR, _, hprow, rfl, hprB, r3, r4, r2, r1, r6, r5, t_song, hplay1, htc1,
          hts1, hrate1, hlen1, t_wfC, t_wfCur, ?_, ?_, r18⟩
        · intro h
          omega
        · intro _
          refine ⟨rfl, ?_, ?_⟩
          · intro h
            rw [hrow1] at hadv
            omega
          · intro _
            refine ⟨rfl, ?_, patIdx, ?_, rfl⟩
            · rw [if_neg (by rw [horder1, hpos1] at hw; exact hw), hpos1]
            · rw [horder1] at hg
              exact hg

lemma stepAdvanceN_compose (m n : ℕ) (p q r : Player)
    (h1 : Player.stepAdvanceN m p = some q) (h2 : Player.stepAdvanceN n q = some r) :
    Player.stepAdvanceN (m + n) p = some r := by
  rw [stepAdvanceN_add m n p, h1]
  exact h2

lemma stepAdvanceN_one (p q : Player) (h : p.stepAdvance = some q) :
    Player.stepAdvanceN 1 p = some q := by
  show (match p.stepAdvance with
        | none => none
        | some p1 => Player.stepAdvanceN 0 p1) = some q
  rw [h]
  rfl

lemma traceRows_one (p q : Player) (h : p.stepAdvance = some q) :
    Player.traceRows 1 p =
      some (if p.processesRowB then [(p.position, p.row)] else []) := by
  show (match p.stepAdvance with
        | none => none
        | some p1 =>
          match Player.traceRows 0 p1 with
          | none => none
          | some rest =>
            some (if p.processesRowB then (p.position, p.row) :: rest else rest)) = _
  rw [h]
  dsimp only
  rw [show Player.traceRows 0 q = some [] from rfl]

lemma midTicks (pat : Pattern) : ∀ j, ∀ p : Player,
    p.playing = true → p.tickCounter = 0 →
    p.song.patterns.get? p.pattern = some pat →
    (pat.rows ≤ p.row + 1 → p.song.order ≠ []) →
    1 ≤ p.tick → p.tick + (j + 1) = p.song.speed →
    wfChannelsB p = true → wfOrnamentsB p.song = true → wfCursorsB p = true →
    ∃ n p', Player.stepAdvanceN n p = some p' ∧ Player.traceRows n p = some [] ∧
      1 ≤ n ∧ (1 ≤ p.tickSamples → n = (j + 1) * p.tickSamples) ∧
      p'.song = p.song ∧ p'.playing = true ∧ p'.tick = 0 ∧ p'.tickCounter = 0 ∧
      p'.tickSamples = p.tickSamples ∧ p'.sampleRate = p.sampleRate ∧
      p'.channels.length = p.channels.length ∧
      wfChannelsB p' = true ∧ wfCursorsB p' = true ∧
      ((p.row + 1 < pat.rows → p'.row = p.row + 1 ∧ p'.position = p.position ∧
          p'.pattern = p.pattern) ∧
       (pat.rows ≤ p.row + 1 → p'.row = 0 ∧
          p'.position = (if p.song.order.length ≤ p.position + 1 then 0
            else p.position + 1) ∧
          ∃ patIdx, p.song.order.get? p'.position = some patIdx ∧
            p'.pattern = patIdx)) := by
  intro j
  induction j with
  | zero =>
    intro p hplay htc hpat horder htick hj hwfC hwfO hwfCur
    obtain ⟨m, hQsteps, hQtrace, hQb, hQmax⟩ := quiet_to_boundary p hplay htc
    obtain ⟨q, hsq, hprB, b_song, b_play, b_tc, b_ts, b_rate, b_len, b_wfC, b_wfCur,
        b_mid, b_adv⟩ :=
      stepAdvance_boundary_mid { p with tickCounter := m } pat hplay hQb
        (by dsimp only; omega) hpat horder hwfC hwfO hwfCur
    have hq_song : q.song = p.song := b_song
    have hq_ts : q.tickSamples = p.tickSamples := b_ts
    have hq_rate : q.sampleRate = p.sampleRate := b_rate
    have hq_len : q.channels.length = p.channels.length := b_len
    obtain ⟨b_tick0, b_advr⟩ := b_adv (by dsimp only; omega)
    refine ⟨m + 1, q, ?_, ?_, by omega, by omega, hq_song, b_play, b_tick0, b_tc,
      hq_ts, hq_rate, hq_len, b_wfC, b_wfCur, ?_, ?_⟩
    · exact stepAdvanceN_compose m 1 p _ q hQsteps (stepAdvanceN_one _ q hsq)
    · have ht1 : Player.traceRows 1 { p with tickCounter := m } = some [] := by
        rw [traceRows_one _ q hsq, hprB]
        rfl
      have := traceRows_append m 1 p { p with tickCounter := m } [] [] hQsteps
        hQtrace ht1
      simpa using this
    · intro h
      exact (b_advr.1) h
    · intro h
      exact (b_advr.2) h
  | succ j ih =>
    intro p hplay htc hpat horder htick hj hwfC hwfO hwfCur
    obtain ⟨m, hQsteps, hQtrace, hQb, hQmax⟩ := quiet_to_boundary p hplay htc
    obtain ⟨q, hsq, hprB, b_song, b_play, b_tc, b_ts, b_rate, b_len, b_wfC, b_wfCur,
        b_mid, b_adv⟩ :=
      stepAdvance_boundary_mid { p with tickCounter := m } pat hplay hQb
        (by dsimp only; omega) hpat horder hwfC hwfO hwfCur
    have hq_song : q.song = p.song := b_song
    have hq_ts : q.tickSamples = p.tickSamples := b_ts
    obtain ⟨c_tick, c_row, c_pos, c_pat⟩ := b_mid (by dsimp only; omega)
    have hq_tick : q.tick = p.tick + 1 := c_tick
    have hq_row : q.row = p.row := c_row
    have hq_pos : q.position = p.position := c_pos
    have hq_patt : q.pattern = p.pattern := c_pat
    obtain ⟨n2, p', i_steps, i_trace, i_n1, i_count, i_song, i_play, i_tick, i_tc,
        i_ts, i_rate, i_len, i_wfC, i_wfCur, i_advA, i_advB⟩ :=
      ih q b_play b_tc (by rw [hq_song, hq_patt]; exact hpat)
        (by intro h; rw [hq_song]; exact horder (by rw [← hq_row]; exact h)) (by omega)
        (by rw [hq_tick, hq_song]; omega) b_wfC (by rw [hq_song]; exact hwfO) b_wfCur
    have hsteps : Player.stepAdvanceN (m + 1 + n2) p = some p' := by
      refine stepAdvanceN_compose (m + 1) n2 p q p' ?_ i_steps
      exact stepAdvanceN_compose m 1 p _ q hQsteps (stepAdvanceN_one _ q hsq)
    have htrace : Player.traceRows (m + 1 + n2) p = some [] := by
      have ht1 : Player.traceRows 1 { p with tickCounter := m } = some [] := by
        rw [traceRows_one _ q hsq, hprB]
        rfl
      have hfirst : Player.traceRows (m + 1) p = some [] := by
        have := traceRows_append m 1 p { p with tickCounter := m } [] [] hQsteps
          hQtrace ht1
        simpa using this
      have := traceRows_append (m + 1) n2 p q [] [] (stepAdvanceN_compose m 1 p _ q
        hQsteps (stepAdvanceN_one _ q hsq)) hfirst i_trace
      simpa using this
    refine ⟨m + 1 + n2, p', hsteps, htrace, by omega, ?_, by rw [i_song, hq_song],
      i_play, i_tick, i_tc, by rw [i_ts, hq_ts], by rw [i_rate, b_rate],
      by rw [i_len, b_len], i_wfC, i_wfCur, ?_, ?_⟩
    · intro hts
      have h1 : n2 = (j + 1) * q.tickSamples := i_count (by omega)
      rw [hq_ts] at h1
      have hm1 : m + 1 = p.tickSamples := by omega
      have hmul : (j + 1 + 1) * p.tickSamples = (j + 1) * p.tickSamples + p.tickSamples :=
        Nat.succ_mul _ _
      omega
    · intro h
      have := i_advA (by rw [hq_row]; exact h)
      refine ⟨by rw [this.1, hq_row], by rw [this.2.1, hq_pos],
        by rw [this.2.2, hq_patt]⟩
    · intro h
      obtain ⟨w1, w2, w3⟩ := i_advB (by rw [hq_row]; exact h)
      refine ⟨w1, ?_, ?_⟩
      · rw [w2, hq_song, hq_pos]
      · obtain ⟨patIdx, hg, hp⟩ := w3
        rw [hq_song] at hg
        exact ⟨patIdx, hg, hp⟩

lemma rowStep (pat : Pattern) (p : Player)
    (hplay : p.playing = true) (htc : p.tickCounter = 0) (htick : p.tick = 0)
    (hpat : p.song.patterns.get? p.pattern = some pat)
    (hrow : p.row < pat.rows)
    (horder : pat.rows ≤ p.row + 1 → p.song.order ≠ [])
    (hwfP : wfPatternsB p.song = true)
    (hwfC : wfChannelsB p = true) (hwfO : wfOrnamentsB p.song = true)
    (hwfCur : wfCursorsB p = true) :
    ∃ n p', 1 ≤ n ∧ Player.stepAdvanceN n p = some p' ∧
      Player.traceRows n p = some [(p.position, p.row)] ∧
      p'.song.patterns = p.song.patterns ∧ p'.song.order = p.song.order ∧
      p'.song.ornaments = p.song.ornaments ∧
      p'.playing = true ∧ p'.tick = 0 ∧ p'.tickCounter = 0 ∧
      p'.sampleRate = p.sampleRate ∧
      p'.channels.length = p.channels.length ∧
      wfChannelsB p' = true ∧ wfCursorsB p' = true ∧
      wfPatternsB p'.song = true ∧ wfOrnamentsB p'.song = true ∧
      ((p.row + 1 < pat.rows → p'.row = p.row + 1 ∧ p'.position = p.position ∧
          p'.pattern = p.pattern) ∧
       (pat.rows ≤ p.row + 1 → p'.row = 0 ∧
          p'.position = (if p.song.order.length ≤ p.position + 1 then 0
            else p.position + 1) ∧
          ∃ patIdx, p.song.order.get? p'.position = some patIdx ∧
            p'.pattern = patIdx)) := by
  obtain ⟨m, hQsteps, hQtrace, hQb, hQmax⟩ := quiet_to_boundary p hplay htc
  obtain ⟨pR, q, hprow, hsq, hprB, r_pats, r_ord, r_orn, r_ins, r_cfg, r_sch, b_song,
      b_play, b_tc, b_ts, b_rate, b_len, b_wfC, b_wfCur, b_one, b_adv, b_fx⟩ :=
    stepAdvance_boundary_row { p with tickCounter := m } pat hplay hQb htick hpat hrow
      horder hwfP hwfC hwfO hwfCur
  have r_pats' : pR.song.patterns = p.song.patterns := r_pats
  have r_ord' : pR.song.order = p.song.order := r_ord
  have r_orn' : pR.song.ornaments = p.song.ornaments := r_orn
  have b_rate' : q.sampleRate = p.sampleRate := b_rate
  have b_len' : q.channels.length = p.channels.length := b_len
  have hwfOq : wfOrnamentsB q.song = true := by
    have he : wfOrnamentsB q.song = wfOrnamentsB p.song := by
      unfold wfOrnamentsB
      rw [b_song, r_orn']
    rw [he]
    exact hwfO
  have hwfPq : wfPatternsB q.song = true := by
    have he : wfPatternsB q.song = wfPatternsB p.song := by
      unfold wfPatternsB
      rw [b_song, r_pats']
    rw [he]
    exact hwfP
  have ht1 : Player.traceRows 1 { p with tickCounter := m } =
      some [(p.position, p.row)] := by
    rw [traceRows_one _ q hsq, hprB]
    rfl
  have hfsteps : Player.stepAdvanceN (m + 1) p = some q :=
    stepAdvanceN_compose m 1 p _ q hQsteps (stepAdvanceN_one _ q hsq)
  have hftrace : Player.traceRows (m + 1) p = some [(p.position, p.row)] := by
    have := traceRows_append m 1 p { p with tickCounter := m } [] [(p.position, p.row)]
      hQsteps hQtrace ht1
    simpa using this
  by_cases hsp : 1 < pR.song.speed
  · obtain ⟨c_tick, c_row, c_pos, c_pat⟩ := b_one hsp
    have c_row' : q.row = p.row := c_row
    have c_pos' : q.position = p.position := c_pos
    have c_pat' : q.pattern = p.pattern := c_pat
    obtain ⟨n2, p', i_steps, i_trace, i_n1, i_count, i_song, i_play, i_tick, i_tc,
        i_ts, i_rate, i_len, i_wfC, i_wfCur, i_advA, i_advB⟩ :=
      midTicks pat (pR.song.speed - 2) q b_play b_tc
        (by rw [b_song, r_pats', c_pat']; exact hpat)
        (by intro h
            rw [b_song, r_ord']
            exact horder (by rw [← c_row']; exact h))
        (by rw [c_tick]) (by rw [c_tick, b_song]; omega)
        b_wfC hwfOq b_wfCur
    have hsteps : Player.stepAdvanceN (m + 1 + n2) p = some p' :=
      stepAdvanceN_compose (m + 1) n2 p q p' hfsteps i_steps
    have htrace : Player.traceRows (m + 1 + n2) p = some [(p.position, p.row)] := by
      have := traceRows_append (m + 1) n2 p q [(p.position, p.row)] [] hfsteps
        hftrace i_trace
      simpa using this
    refine ⟨m + 1 + n2, p', by omega, hsteps, htrace,
      by rw [i_song, b_song, r_pats'], by rw [i_song, b_song, r_ord'],
      by rw [i_song, b_song, r_orn'], i_play, i_tick, i_tc,
      by rw [i_rate, b_rate'], by rw [i_len, b_len'], i_wfC, i_wfCur,
      ?_, ?_, ?_, ?_⟩
    · have he : wfPatternsB p'.song = wfPatternsB q.song := by
        unfold wfPatternsB
        rw [i_song]
      rw [he]
      exact hwfPq
    · have he : wfOrnamentsB p'.song = wfOrnamentsB q.song := by
        unfold wfOrnamentsB
        rw [i_song]
      rw [he]
      exact hwfOq
    · intro h
      obtain ⟨w1, w2, w3⟩ := i_advA (by rw [c_row']; exact h)
      exact ⟨by rw [w1, c_row'], by rw [w2, c_pos'], by rw [w3, c_pat']⟩
    · intro h
      obtain ⟨w1, w2, w3⟩ := i_advB (by rw [c_row']; exact h)
      refine ⟨w1, ?_, ?_⟩
      · rw [w2, b_song, r_ord', c_pos']
      · obtain ⟨patIdx, hg, hp⟩ := w3
        rw [b_song, r_ord'] at hg
        exact ⟨patIdx, hg, hp⟩
  · have hle : pR.song.speed ≤ 1 := by omega
    obtain ⟨c_tick0, c_mid, c_wrap⟩ := b_adv hle
    refine ⟨m + 1, q, by omega, hfsteps, hftrace,
      by rw [b_song, r_pats'], by rw [b_song, r_ord'], by rw [b_song, r_orn'],
      b_play, c_tick0, b_tc, b_rate', b_len', b_wfC, b_wfCur, ?_, ?_, ?_, ?_⟩
    · have he : wfPatternsB q.song = wfPatternsB p.song := by
        unfold wfPatternsB
        rw [b_song, r_pats']
      rw [he]
      exact hwfP
    · exact hwfOq
    · intro h
      exact c_mid h
    · intro h
      exact c_wrap h

/-- C1: with `Speed = 6`, `Tempo = 125` and `SampleRate = 44100`,
`Player.UpdateTiming` computes `TickSamples = 882`, and from a playing state at
tick 0 with the sample counter at 0, a mid-pattern row and no `FxSpeed` command
in the current row, generating exactly `6 × 882 = 5292` samples advances the
row counter by exactly one while the order position and pattern stay put. -/
theorem row_advance_timing (p : Player) (pat : Pattern)
    (hplay : p.playing = true) (htc : p.tickCounter = 0) (htick : p.tick = 0)
    (hts : p.tickSamples = 882)
    (hspeed : p.song.speed = 6) (htempo : p.song.tempo = 125)
    (hrate : p.sampleRate = 44100)
    (hpat : p.song.patterns.get? p.pattern = some pat)
    (hrow2 : p.row + 1 < pat.rows)
    (hnofx : ∀ cells note, pat.notes.get? p.row = some cells → note ∈ cells →
      note.effect.type ≠ fxSpeed)
    (hwfP : wfPatternsB p.song = true) (hwfC : wfChannelsB p = true)
    (hwfO : wfOrnamentsB p.song = true) (hwfCur : wfCursorsB p = true) :
    (Player.updateTiming p).tickSamples = 882 ∧
    ∃ p', Player.stepAdvanceN 5292 p = some p' ∧
      p'.row = p.row + 1 ∧ p'.position = p.position ∧ p'.pattern = p.pattern ∧
      p'.tick = 0 ∧ p'.tickCounter = 0 ∧ p'.playing = true := by
  constructor
  · unfold Player.updateTiming
    dsimp only
    rw [htempo, hrate]
    norm_num
    rfl
  obtain ⟨m, hQsteps, hQtrace, hQb, hQmax⟩ := quiet_to_boundary p hplay htc
  obtain ⟨pR, q, hprow, hsq, hprB, r_pats, r_ord, r_orn, r_ins, r_cfg, r_sch, b_song,
      b_play, b_tc, b_ts, b_rate, b_len, b_wfC, b_wfCur, b_one, b_adv, b_fx⟩ :=
    stepAdvance_boundary_row { p with tickCounter := m } pat hplay hQb htick hpat
      (by dsimp only; omega) (fun h => absurd h (by dsimp only; omega))
      hwfP hwfC hwfO hwfCur
  have r_pats' : pR.song.patterns = p.song.patterns := r_pats
  have r_orn' : pR.song.ornaments = p.song.ornaments := r_orn
  obtain ⟨f_speed, f_tempo, f_ts⟩ := b_fx hnofx
  have f_speed' : pR.song.speed = 6 := by
    rw [(f_speed : pR.song.speed = p.song.speed), hspeed]
  have f_ts' : pR.tickSamples = 882 := by
    rw [(f_ts : pR.tickSamples = p.tickSamples), hts]
  obtain ⟨c_tick, c_row, c_pos, c_pat⟩ := b_one (by omega)
  have c_row' : q.row = p.row := c_row
  have c_pos' : q.position = p.position := c_pos
  have c_pat' : q.pattern = p.pattern := c_pat
  have hq_ts : q.tickSamples = 882 := by
    rw [b_ts, f_ts']
  have hwfOq : wfOrnamentsB q.song = true := by
    have he : wfOrnamentsB q.song = wfOrnamentsB p.song := by
      unfold wfOrnamentsB
      rw [b_song, r_orn']
    rw [he]
    exact hwfO
  obtain ⟨n2, p', i_steps, i_trace, i_n1, i_count, i_song, i_play, i_tick, i_tc,
      i_ts, i_rate, i_len, i_wfC, i_wfCur, i_advA, i_advB⟩ :=
    midTicks pat 4 q b_play b_tc
      (by rw [b_song, r_pats', c_pat']; exact hpat)
      (by intro h; exact absurd h (by rw [c_row']; omega))
      (by rw [c_tick]) (by rw [c_tick, b_song, f_speed'])
      b_wfC hwfOq b_wfCur
  have hn2 : n2 = 4410 := by
    have := i_count (by omega)
    rw [hq_ts] at this
    omega
  have hm : m + 1 = 882 := by omega
  have hsteps : Player.stepAdvanceN (m + 1 + n2) p = some p' :=
    stepAdvanceN_compose (m + 1) n2 p q p'
      (stepAdvanceN_compose m 1 p _ q hQsteps (stepAdvanceN_one _ q hsq)) i_steps
  have h5292 : (5292 : ℕ) = m + 1 + n2 := by omega
  obtain ⟨w1, w2, w3⟩ := i_advA (by rw [c_row']; exact hrow2)
  refine ⟨p', by rw [h5292]; exact hsteps, ?_, ?_, ?_, i_tick, i_tc, i_play⟩
  · rw [w1, c_row']
  · rw [w2, c_pos']
  · rw [w3, c_pat']

/-- Witness for C1: the concrete speed-6, tempo-125, 44100 Hz playing state at
row 0 of a two-row pattern advances to row 1 after exactly 5292 samples. -/
theorem row_advance_timing_witness :
    playerWitC1.playing = true ∧ playerWitC1.song.speed = 6 ∧
    playerWitC1.song.tempo = 125 ∧ playerWitC1.tickSamples = 882 ∧
    ((Player.updateTiming playerWitC1).tickSamples = 882 ∧
      ∃ p', Player.stepAdvanceN 5292 playerWitC1 = some p' ∧
        p'.row = playerWitC1.row + 1 ∧ p'.position = playerWitC1.position ∧
        p'.pattern = playerWitC1.pattern ∧ p'.tick = 0 ∧ p'.tickCounter = 0 ∧
        p'.playing = true) :=
  ⟨rfl, rfl, rfl, rfl,
   row_advance_timing playerWitC1 patWitC1 rfl rfl rfl rfl rfl rfl rfl rfl
     (by decide)
     (fun cells note hc hm => by
       rw [show patWitC1.notes.get? playerWitC1.row = some [] from rfl] at hc
       cases hc
       exact absurd hm (List.not_mem_nil note))
     (by decide) (by decide) (by decide) (by decide)⟩


/-- C2 (refuted — code bug): out-of-range indices are claimed to degrade to
safe no-ops and never fault, including with an empty order list; but a playing
state whose order list is empty panics in the row-advance block of
`Player.GenerateSamples` (`p.Song.Order[p.Position]` with `Position = 0` and an
empty slice) the moment the last row of the pattern completes: the embedded
step function returns `none` (a Go panic), not a no-op. -/
theorem order_wrap_panic : Player.stepAdvance playerEmptyOrder = none := by
  have hrow : Player.processRow { playerEmptyOrder with tickCounter := 0 } =
      some { playerEmptyOrder with tickCounter := 0 } := by
    unfold Player.processRow
    rw [if_neg (by decide)]
    rw [show ({ playerEmptyOrder with tickCounter := 0 } : Player).song.patterns.get?
        ({ playerEmptyOrder with tickCounter := 0 } : Player).pattern
          = some patWitRow1 from rfl]
    dsimp only
    rw [if_neg (by decide)]
    rw [Player.processRowFrom]
    rw [dif_neg (by decide)]
  have htickp : Player.processTick { playerEmptyOrder with tickCounter := 0 } =
      some { playerEmptyOrder with tickCounter := 0 } := by
    unfold Player.processTick
    rw [tickChannelsFrom]
    rw [dif_neg (by decide)]
    rfl
  unfold Player.stepAdvance
  rw [if_neg (by decide)]
  dsimp only
  rw [if_neg (by decide)]
  rw [if_pos (by decide)]
  rw [hrow]
  dsimp only
  rw [htickp]
  dsimp only
  rw [if_neg (by decide)]
  rw [if_pos (by decide)]
  rw [show ({ playerEmptyOrder with tickCounter := 0, tick := 1, row := 1 } : Player).song.patterns.get?
      ({ playerEmptyOrder with tickCounter := 0, tick := 1, row := 1 } : Player).pattern
        = some patWitRow1 from rfl]
  dsimp only
  rw [if_neg (by decide)]
  rw [if_pos (by decide)]
  rfl

lemma passLoop (pat : Pattern) (hrows64 : pat.rows = 64) : ∀ k, ∀ p : Player,
    p.song.order = [0] → p.song.patterns.get? 0 = some pat →
    p.playing = true → p.tick = 0 → p.tickCounter = 0 →
    p.position = 0 → p.pattern = 0 → p.row + k = 64 → 1 ≤ k →
    wfPatternsB p.song = true → wfChannelsB p = true →
    wfOrnamentsB p.song = true → wfCursorsB p = true →
    ∃ n p', 1 ≤ n ∧ Player.stepAdvanceN n p = some p' ∧
      Player.traceRows n p = some ((List.range k).map fun i => (0, p.row + i)) ∧
      p'.song.patterns = p.song.patterns ∧ p'.song.order = p.song.order ∧
      p'.song.ornaments = p.song.ornaments ∧
      p'.playing = true ∧ p'.tick = 0 ∧ p'.tickCounter = 0 ∧
      p'.position = 0 ∧ p'.pattern = 0 ∧ p'.row = 0 ∧
      p'.sampleRate = p.sampleRate ∧ p'.channels.length = p.channels.length ∧
      wfPatternsB p'.song = true ∧ wfChannelsB p' = true ∧
      wfOrnamentsB p'.song = true ∧ wfCursorsB p' = true := by
  intro k
  induction k with
  | zero =>
    intro p _ _ _ _ _ _ _ _ hk
    omega
  | succ k ih =>
    intro p horder hpat hplay htick htc hpos hpatt hrowk hk hwfP hwfC hwfO hwfCur
    have hrow : p.row < pat.rows := by omega
    obtain ⟨n1, q, hn1, hsteps1, htrace1, q_pats, q_ord, q_orn, q_play, q_tick, q_tc,
        q_rate, q_len, q_wfC, q_wfCur, q_wfP, q_wfO, hadvA, hadvB⟩ :=
      rowStep pat p hplay htc htick (by rw [hpatt]; exact hpat) hrow
        (fun _ => by rw [horder]; exact List.cons_ne_nil 0 [])
        hwfP hwfC hwfO hwfCur
    by_cases hk0 : k = 0
    · subst hk0
      obtain ⟨w_row, w_pos, patIdx, hg, w_pat⟩ := hadvB (by omega)
      have hq_pos : q.position = 0 := by
        rw [w_pos, if_pos (by rw [horder, hpos]; simp)]
      have hpi : patIdx = 0 := by
        rw [horder, hq_pos] at hg
        simpa using hg.symm
      have hq_pat : q.pattern = 0 := by
        rw [w_pat, hpi]
      refine ⟨n1, q, hn1, hsteps1, ?_, q_pats, q_ord, q_orn, q_play, q_tick, q_tc,
        hq_pos, hq_pat, w_row, q_rate, q_len, q_wfP, q_wfC, q_wfO, q_wfCur⟩
      rw [htrace1, hpos]
      rfl
    · obtain ⟨w_row, w_pos, w_pat⟩ := hadvA (by omega)
      obtain ⟨n2, p', hn2, hsteps2, htrace2, i_pats, i_ord, i_orn, i_play, i_tick,
          i_tc, i_pos, i_patt, i_row, i_rate, i_len, i_wfP, i_wfC, i_wfO, i_wfCur⟩ :=
        ih q (by rw [q_ord]; exact horder) (by rw [q_pats]; exact hpat)
          q_play q_tick q_tc (by rw [w_pos]; exact hpos) (by rw [w_pat]; exact hpatt)
          (by rw [w_row]; omega) (by omega) q_wfP q_wfC q_wfO q_wfCur
      have hsteps : Player.stepAdvanceN (n1 + n2) p = some p' :=
        stepAdvanceN_compose n1 n2 p q p' hsteps1 hsteps2
      simp only [w_row] at htrace2
      have htrace : Player.traceRows (n1 + n2) p =
          some ((List.range (k + 1)).map fun i => ((0 : ℕ), p.row + i)) := by
        have happ := traceRows_append n1 n2 p q [(p.position, p.row)]
          ((List.range k).map fun i => (0, p.row + 1 + i)) hsteps1 htrace1 htrace2
        rw [happ]
        refine congrArg some ?_
        rw [List.range_succ_eq_map, List.map_cons, List.map_map]
        rw [hpos]
        refine congrArg₂ List.cons rfl ?_
        apply List.map_congr_left
        intro a ha
        show ((0 : ℕ), p.row + 1 + a) = ((0 : ℕ), p.row + (a + 1))
        have h2 : p.row + 1 + a = p.row + (a + 1) := by omega
        rw [h2]
      exact ⟨n1 + n2, p', by omega, hsteps, htrace,
        by rw [i_pats, q_pats], by rw [i_ord, q_ord], by rw [i_orn, q_orn],
        i_play, i_tick, i_tc, i_pos, i_patt, i_row, by rw [i_rate, q_rate],
        by rw [i_len, q_len], i_wfP, i_wfC, i_wfO, i_wfCur⟩

/-- C3: a playing song with `Order = [0]` and a single 64-row pattern processes
rows 0 through 63 exactly once each (the row-processing trace over the pass is
exactly `[(0,0), (0,1), …, (0,63)]` — no row skipped, none repeated), returns
to order position 0, pattern 0, row 0 after those 64 row advances, and is
still playing with the loop invariant restored, so the song loops
indefinitely. -/
theorem order_loop_rows (p : Player) (pat : Pattern)
    (hrows : pat.rows = 64)
    (horder : p.song.order = [0])
    (hpats : p.song.patterns.get? 0 = some pat)
    (hplay : p.playing = true) (htick : p.tick = 0) (htc : p.tickCounter = 0)
    (hpos : p.position = 0) (hpatt : p.pattern = 0) (hrow : p.row = 0)
    (hwfP : wfPatternsB p.song = true) (hwfC : wfChannelsB p = true)
    (hwfO : wfOrnamentsB p.song = true) (hwfCur : wfCursorsB p = true) :
    ∃ n p', 1 ≤ n ∧ Player.stepAdvanceN n p = some p' ∧
      Player.traceRows n p = some ((List.range 64).map fun r => (0, r)) ∧
      p'.playing = true ∧ p'.position = 0 ∧ p'.pattern = 0 ∧ p'.row = 0 ∧
      p'.tick = 0 ∧ p'.tickCounter = 0 ∧
      p'.song.patterns = p.song.patterns ∧ p'.song.order = p.song.order ∧
      p'.song.ornaments = p.song.ornaments ∧
      p'.channels.length = p.channels.length ∧
      wfPatternsB p'.song = true ∧ wfChannelsB p' = true ∧
      wfOrnamentsB p'.song = true ∧ wfCursorsB p' = true := by
  obtain ⟨n, p', hn, hsteps, htrace, i_pats, i_ord, i_orn, i_play, i_tick, i_tc,
      i_pos, i_patt, i_row, i_rate, i_len, i_wfP, i_wfC, i_wfO, i_wfCur⟩ :=
    passLoop pat hrows 64 p horder hpats hplay htick htc hpos hpatt
      (by omega) (by omega) hwfP hwfC hwfO hwfCur
  refine ⟨n, p', hn, hsteps, ?_, i_play, i_pos, i_patt, i_row, i_tick, i_tc,
    i_pats, i_ord, i_orn, i_len, i_wfP, i_wfC, i_wfO, i_wfCur⟩
  rw [htrace]
  refine congrArg some ?_
  apply List.map_congr_left
  intro a ha
  show ((0 : ℕ), p.row + a) = ((0 : ℕ), a)
  rw [hrow, Nat.zero_add]

/-- Witness for C3: the concrete `Order = [0]` player with one empty 64-row
pattern loops through its 64 rows and returns to position 0, row 0, still
playing. -/
theorem order_loop_rows_witness :
    playerWitC3.song.order = [0] ∧ patWitC3.rows = 64 ∧
    playerWitC3.playing = true ∧
    ∃ n p', 1 ≤ n ∧ Player.stepAdvanceN n playerWitC3 = some p' ∧
      Player.traceRows n playerWitC3 = some ((List.range 64).map fun r => (0, r)) ∧
      p'.playing = true ∧ p'.position = 0 ∧ p'.pattern = 0 ∧ p'.row = 0 ∧
      p'.tick = 0 ∧ p'.tickCounter = 0 ∧
      p'.song.patterns = playerWitC3.song.patterns ∧
      p'.song.order = playerWitC3.song.order ∧
      p'.song.ornaments = playerWitC3.song.ornaments ∧
      p'.channels.length = playerWitC3.channels.length ∧
      wfPatternsB p'.song = true ∧ wfChannelsB p' = true ∧
      wfOrnamentsB p'.song = true ∧ wfCursorsB p' = true :=
  ⟨rfl, rfl, rfl,
   order_loop_rows playerWitC3 patWitC3 rfl rfl rfl rfl rfl rfl rfl rfl rfl
     (by decide) (by decide) (by decide) (by decide)⟩
